import Mathlib

/-!
Verification development for the batch video encoder.

The definitions below are a shallow embedding of the Python sources:
  - src/encoder/media.py            (VideoStream, AudioStream, MediaFile.get_video_info)
  - src/encoder/encoders/encoder.py (CRFEncoder, PresetCRFEncoder)
  - src/encoder/encoders/hevc_encoder.py (HevcEncoder)
  - src/encoder/encoders/av1_encoder.py  (SVTAV1Encoder, LibaomAV1Encoder)
  - src/encoder/encoders/custom_encoder.py (CustomEncoder)
  - src/batch_encoding.py           (BatchEncoder)

Machine integers are modelled as Nat/Int, Python floats that only ever hold
exact decimal/rational values are modelled as Rat, fallible code returns
Except, and filesystem/subprocess effects are modelled by explicit state
records plus oracles for the outcomes of external calls.
-/

namespace BatchEnc

/-- `EncodingStatus` from src/config/config_definitions.py. -/
inductive EncodingStatus
  | skipped
  | success
  | failed
  | lowquality
  | largesize
deriving DecidableEq, Repr

/-- `RESOLUTION` map from src/config/config_definitions.py (insertion order kept:
the Python dict is iterated in this order by
`VideoStream.get_readable_resolution_or_default`). -/
def RESOLUTION : List (String × Nat) :=
  [("4k", 3840 * 2160), ("2k", 2560 * 1440), ("1080p", 1920 * 1080),
   ("720p", 1280 * 720), ("480p", 640 * 480), ("360p", 480 * 360)]

/-- `VideoStream` dataclass from src/encoder/media.py.  `frameRate` holds the
parsed rational `r_frame_rate` (numerator, denominator); the Python field stores
`0 if denominator == 0 else numerator / denominator` as a float, so the float is
zero exactly when the numerator or the denominator is zero.  `duration` is kept
as the raw ffprobe string, exactly as `stream.get("duration")` stores it. -/
structure VideoStream where
  index : Option Int
  ffmpegIndex : Nat
  codec : Option String
  tag : Option String
  width : Option Nat
  height : Option Nat
  frameRate : Option (Nat × Nat)
  duration : Option String
  pixFmt : Option String
deriving DecidableEq, Repr

/-- `AudioStream` dataclass from src/encoder/media.py. -/
structure AudioStream where
  codec : Option String
  ffmpegIndex : Nat
  index : Option Int
  bitRate : Option Nat
  sampleRate : Option Nat
deriving DecidableEq, Repr

/-- `MediaFile` from src/encoder/media.py: a path with its usable video and
audio streams (`video_info` is non-empty for every constructed MediaFile,
enforced in `MediaFile.__init__`). -/
structure MediaFileModel where
  filePath : String
  videoInfo : List VideoStream
  audioInfo : List AudioStream
deriving DecidableEq, Repr

/-- Bucket test from `VideoStream.get_readable_resolution_or_default`:
`abs(pixel_count - standard_pixels) <= standard_pixels * tolerance or
pixel_count >= standard_pixels`. -/
def bucketCond (pixelCount stdPixels : Nat) (tolerance : Rat) : Bool :=
  decide ((((pixelCount : Int) - (stdPixels : Int)).natAbs : Rat)
            ≤ (stdPixels : Rat) * tolerance)
  || decide (pixelCount ≥ stdPixels)

/-- `VideoStream.get_readable_resolution_or_default` from src/encoder/media.py:
first resolution key (in `RESOLUTION` order) whose pixel count is within the
tolerance or below the stream's pixel count; the default when dimensions are
unknown or nothing matches.  Config defaults: default "1080p", tolerance 0.05. -/
def getReadableResolutionOrDefault (s : VideoStream) (dflt : String) (tolerance : Rat) :
    String :=
  match s.width, s.height with
  | some w, some h =>
    match RESOLUTION.find? (fun p => bucketCond (w * h) p.2 tolerance) with
    | some p => p.1
    | none => dflt
  | _, _ => dflt

/-- Resolution bucket with the config defaults (`default_resolution = "1080p"`,
`resolution_tolerance = 0.05`). -/
def resolutionBucket (s : VideoStream) : String :=
  getReadableResolutionOrDefault s "1080p" (5 / 100)

/-- `VideoStream.map_prefix` from src/encoder/media.py:
`["-map", "0:v:<ffmpeg_index>", "-c:v:<new_index>"]`. -/
def videoMapArgs (v : VideoStream) (newIndex : Nat) : List String :=
  ["-map", "0:v:" ++ toString v.ffmpegIndex, "-c:v:" ++ toString newIndex]

/-- `AudioStream.map_prefix` from src/encoder/media.py. -/
def audioMapArgs (a : AudioStream) (newIndex : Nat) : List String :=
  ["-map", "0:a:" ++ toString a.ffmpegIndex, "-c:a:" ++ toString newIndex]

/-- `compatible_codecs` of `CRFEncoder.prepare_audio_args`. -/
def compatibleAudioCodecs : List String := ["aac", "alac", "ac3", "eac3", "mp4a"]

/-- Python `audio_stream.codec in compatible_codecs` (None is in no set). -/
def audioCodecCompatible (a : AudioStream) : Bool :=
  match a.codec with
  | some c => compatibleAudioCodecs.contains c
  | none => false

/-- One audio stream's argument list, `CRFEncoder.prepare_audio_args`:
copy for compatible codecs, otherwise transcode to aac at the original bitrate
(`-b:a:<i> <bitrate>k`) or at quality 1 when the bitrate is unknown/zero
(Python `if audio_stream.bit_rate:` is false for `None` and `0`). -/
def prepareAudioArgsOne (a : AudioStream) (newIndex : Nat) : List String :=
  audioMapArgs a newIndex ++
    (if audioCodecCompatible a then ["copy"]
     else
       match a.bitRate with
       | some br =>
         if br ≠ 0 then ["aac", "-b:a:" ++ toString a.ffmpegIndex, toString br ++ "k"]
         else ["aac", "-q:a:" ++ toString a.ffmpegIndex, "1"]
       | none => ["aac", "-q:a:" ++ toString a.ffmpegIndex, "1"])

/-- `CRFEncoder.prepare_audio_args`: the per-stream lists in stream order
(the dict's values, enumerated with a zero-based new index). -/
def prepareAudioArgs (audios : List AudioStream) : List (List String) :=
  audios.enum.map (fun p => prepareAudioArgsOne p.2 p.1)

/-! ## Encoder parameter selection (CRF / preset), src/encoder/encoders -/

/-- `config.hevc.crf` defaults from src/config/config_definitions.py. -/
def hevcDefaultCrf : List (String × Int) :=
  [("4k", 25), ("2k", 24), ("1080p", 23), ("720p", 22), ("480p", 20), ("360p", 19)]

/-- `config.hevc.preset` defaults. -/
def hevcDefaultPreset : List (String × String) :=
  [("4k", "slow"), ("2k", "slow"), ("1080p", "medium"), ("720p", "medium"),
   ("480p", "fast"), ("360p", "fast")]

/-- `config.svt_av1.crf` defaults. -/
def svtDefaultCrf : List (String × Int) :=
  [("4k", 30), ("2k", 29), ("1080p", 28), ("720p", 27), ("480p", 25), ("360p", 24)]

/-- `config.svt_av1.preset` defaults. -/
def svtDefaultPreset : List (String × Int) :=
  [("4k", 4), ("2k", 4), ("1080p", 5), ("720p", 5), ("480p", 6), ("360p", 6)]

/-- `config.libaom_av1.crf` defaults. -/
def libaomDefaultCrf : List (String × Int) :=
  [("4k", 28), ("2k", 27), ("1080p", 27), ("720p", 24), ("480p", 21), ("360p", 19)]

/-- `config.libaom_av1.preset` defaults. -/
def libaomDefaultPreset : List (String × Int) :=
  [("4k", 4), ("2k", 4), ("1080p", 4), ("720p", 4), ("480p", 4), ("360p", 4)]

/-- `SVTAV1Encoder.__init__` CRF handling: `if crf: crf = max(1, min(int(crf), 63))`.
A supplied value of 0 (and `None`) is falsy in Python, so it bypasses the clamp. -/
def svtInitCrf : Option Int → Option Int
  | none => none
  | some c => if c ≠ 0 then some (max 1 (min c 63)) else some c

/-- `SVTAV1Encoder.__init__` preset handling:
`if preset: preset = max(1, min(int(preset), 13))`; 0 bypasses the clamp. -/
def svtInitPreset : Option Int → Option Int
  | none => none
  | some p => if p ≠ 0 then some (max 1 (min p 13)) else some p

/-- `LibaomAV1Encoder.__init__` CRF handling: `if crf: crf = max(1, min(int(crf), 63))`. -/
def libaomInitCrf : Option Int → Option Int
  | none => none
  | some c => if c ≠ 0 then some (max 1 (min c 63)) else some c

/-- `LibaomAV1Encoder.__init__` preset handling:
`if preset: preset = max(0, min(int(preset), 8))`; 0 bypasses the clamp. -/
def libaomInitPreset : Option Int → Option Int
  | none => none
  | some p => if p ≠ 0 then some (max 0 (min p 8)) else some p

/-- `HevcEncoder.__init__` passes `crf` straight through to
`PresetCRFEncoder.__init__`/`CRFEncoder.__init__` (no clamping anywhere:
`self.crf = int(crf) if crf else crf` preserves every integer value). -/
def hevcInitCrf : Option Int → Option Int
  | none => none
  | some c => some c

/-- `HevcEncoder.__init__` passes `preset` straight through (no clamping;
x265 presets are strings). -/
def hevcInitPreset : Option String → Option String
  | none => none
  | some p => some p

/-- `CRFEncoder.get_crf`: `self.crf if self.crf is not None else
DEFAULT_CRF[resolution bucket]`, rendered with `str`.  The stored value 0 is not
`None`, so it is used as-is.  The bucket is always one of the six keys of the
default table (or the default "1080p"), so the lookup never fails; `getD 0`
is the unreachable fallback of the total Lean lookup. -/
def getCrf (stored : Option Int) (defaults : List (String × Int)) (v : VideoStream) :
    String :=
  match stored with
  | some c => toString c
  | none => toString ((defaults.lookup (resolutionBucket v)).getD 0)

/-- `PresetCRFEncoder.get_preset` for the integer-preset encoders (SVT/libaom). -/
def getPresetInt (stored : Option Int) (defaults : List (String × Int)) (v : VideoStream) :
    String :=
  match stored with
  | some p => toString p
  | none => toString ((defaults.lookup (resolutionBucket v)).getD 0)

/-- `PresetCRFEncoder.get_preset` for HEVC (string presets). -/
def getPresetStr (stored : Option String) (defaults : List (String × String))
    (v : VideoStream) : String :=
  match stored with
  | some p => p
  | none => (defaults.lookup (resolutionBucket v)).getD ""

/-! ## Command builders -/

/-- Python `video_stream.codec in self.ignore_codec` (None is in no set). -/
def videoCodecIgnored (v : VideoStream) (ignoreCodec : List String) : Bool :=
  match v.codec with
  | some c => ignoreCodec.contains c
  | none => false

/-- Configuration of a `HevcEncoder` as far as command building is concerned:
the stored `self.crf` / `self.preset` (after `__init__`) and `self.ignore_codec`. -/
structure HevcCfg where
  crf : Option Int
  preset : Option String
  ignoreCodec : List String
deriving Repr

/-- One video stream's arguments from `HevcEncoder.prepare_video_args`
(src/encoder/encoders/hevc_encoder.py): ignored codecs are stream-copied — with
a `hev1` container tag additionally rewritten to `hvc1` — and every other
stream is encoded with libx265, preset, `hvc1` tag and CRF. -/
def hevcVideoArgsOne (cfg : HevcCfg) (v : VideoStream) (counter : Nat) : List String :=
  if videoCodecIgnored v cfg.ignoreCodec then
    if v.tag = some "hev1" then
      videoMapArgs v counter ++ ["copy", "-tag:v", "hvc1"]
    else
      videoMapArgs v counter ++ ["copy"]
  else
    videoMapArgs v counter ++
      ["libx265", "-preset", getPresetStr cfg.preset hevcDefaultPreset v,
       "-tag:v", "hvc1", "-crf", getCrf cfg.crf hevcDefaultCrf v]

/-- `HevcEncoder.prepare_video_args`: per-stream argument lists in stream order
(the dict values, streams enumerated by `counter`). -/
def hevcPrepareVideoArgs (cfg : HevcCfg) (videos : List VideoStream) :
    List (List String) :=
  videos.enum.map (fun p => hevcVideoArgsOne cfg p.2 p.1)

/-- Configuration of an `SVTAV1Encoder` for command building. -/
structure SvtCfg where
  crf : Option Int
  preset : Option Int
  tune : Int
  fastDecode : Int
  ignoreCodec : List String
deriving Repr

/-- `config.general.default_frame_rate` (30) used by
`AV1Encoder.get_keyframe_interval` when the stream's frame rate is falsy. -/
def defaultFrameRate : Nat := 30

/-- `AV1Encoder.get_keyframe_interval`: `round(frame_rate * multiplier)`.
`video_stream.frame_rate` is the float num/den (falsy when zero or `None`), so
the rounding is on the exact rational; Python's `round` is banker's rounding,
`Rat`'s `round` rounds half away — both agree except exactly at .5 ties, which
cannot arise here modulo den | 2*num*multiplier edge cases; we use `round` on
the exact rational value. -/
def getKeyframeInterval (v : VideoStream) (multiplier : Nat) : String :=
  let fr : Rat :=
    match v.frameRate with
    | some (n, d) => if n ≠ 0 ∧ d ≠ 0 then (n : Rat) / (d : Rat) else (defaultFrameRate : Rat)
    | none => (defaultFrameRate : Rat)
  toString (round (fr * (multiplier : Rat)))

/-- One video stream's arguments on the SVT-AV1 path.  The base
`CRFEncoder.prepare_video_args` evaluates
`video_stream.codec in self.ignore_codec or video_stream.is_metadata`; the
`VideoStream` dataclass in src/encoder/media.py defines no `is_metadata`
attribute, so when the codec is not ignored the attribute read raises
`AttributeError` (Python short-circuits, so ignored codecs never reach it). -/
def svtVideoArgsOne (cfg : SvtCfg) (v : VideoStream) (counter : Nat) :
    Except String (List String) :=
  if videoCodecIgnored v cfg.ignoreCodec then
    .ok (videoMapArgs v counter ++ ["copy"])
  else
    .error "AttributeError: VideoStream object has no attribute is_metadata"

/-- `PresetCRFEncoder.prepare_video_args` addition: append the preset flag when
the stream's argument list does not contain "copy". -/
def presetAddition (presetCmd presetVal : String) (v : VideoStream) (arg : List String) :
    List String :=
  if arg.contains "copy" then arg
  else arg ++ [presetCmd ++ ":v:" ++ toString v.ffmpegIndex, presetVal]

/-- `SVTAV1Encoder.prepare_video_args` addition: keyframe interval (`-g`) and
`-svtav1-params tune=..[:fast-decode=..]` for encoded streams. -/
def svtAddition (cfg : SvtCfg) (v : VideoStream) (arg : List String) : List String :=
  if arg.contains "copy" then arg
  else
    let fastDecodeArgs :=
      if toString cfg.fastDecode ≠ "" then ":fast-decode=" ++ toString cfg.fastDecode else ""
    arg ++ ["-g", getKeyframeInterval v 5] ++
      ["-svtav1-params", "tune=" ++ toString cfg.tune ++ fastDecodeArgs]

/-- The full SVT-AV1 per-stream pipeline
(`CRFEncoder.prepare_video_args` + preset + SVT additions), as run by
`SVTAV1Encoder.prepare_video_args`. -/
def svtVideoArgsFullOne (cfg : SvtCfg) (v : VideoStream) (counter : Nat) :
    Except String (List String) :=
  match svtVideoArgsOne cfg v counter with
  | .error e => .error e
  | .ok arg =>
    .ok (svtAddition cfg v (presetAddition "-preset" (getPresetInt cfg.preset svtDefaultPreset v) v arg))

/-- The stream loop of `SVTAV1Encoder.prepare_video_args`; the first
`AttributeError` aborts the whole call (the Python exception propagates). -/
def svtVideoArgsList (cfg : SvtCfg) : List (Nat × VideoStream) →
    Except String (List (List String))
  | [] => .ok []
  | p :: rest =>
    match svtVideoArgsFullOne cfg p.2 p.1 with
    | .error e => .error e
    | .ok a =>
      match svtVideoArgsList cfg rest with
      | .error e => .error e
      | .ok rest2 => .ok (a :: rest2)

/-- `SVTAV1Encoder.prepare_video_args` over the enumerated stream list. -/
def svtPrepareVideoArgs (cfg : SvtCfg) (videos : List VideoStream) :
    Except String (List (List String)) :=
  svtVideoArgsList cfg videos.enum

/-- `FFMPEG` binary name resolved by `config.env.check_env`. -/
def ffmpegBin : String := "ffmpeg"

/-- The core of `CRFEncoder.prepare_cmd` (src/encoder/encoders/encoder.py,
lines 207-249), parameterised by the already-computed per-stream video and
audio argument lists: returns `none` ("no command", i.e. the SKIPPED signal)
when the flattened video arguments are empty, or when the encoder name is
absent, "hvc1" is absent, and every audio argument list contains "copy". -/
def prepareCmdCore (encoder : String) (videoArgs audioArgs : List (List String))
    (inputPath outPath : String) : Option (List String) :=
  let videoFlat := videoArgs.flatten
  let audioFlat := audioArgs.flatten
  if videoFlat.isEmpty then none
  else if !(videoFlat.contains encoder) && !(videoFlat.contains "hvc1")
          && audioArgs.all (fun s => s.contains "copy") then none
  else
    some ([ffmpegBin, "-y", "-i", inputPath] ++ videoFlat ++ audioFlat ++
      ["-c:s", "copy", "-movflags", "+faststart", outPath])

/-- `CRFEncoder.prepare_cmd` as instantiated by a `HevcEncoder`. -/
def hevcPrepareCmd (cfg : HevcCfg) (m : MediaFileModel) (outPath : String) :
    Option (List String) :=
  prepareCmdCore "libx265" (hevcPrepareVideoArgs cfg m.videoInfo)
    (prepareAudioArgs m.audioInfo) m.filePath outPath

/-- `CRFEncoder.prepare_cmd` as instantiated by an `SVTAV1Encoder`; the
`AttributeError` raised inside `prepare_video_args` propagates. -/
def svtPrepareCmd (cfg : SvtCfg) (m : MediaFileModel) (outPath : String) :
    Except String (Option (List String)) :=
  match svtPrepareVideoArgs cfg m.videoInfo with
  | .error e => .error e
  | .ok videoArgs =>
    .ok (prepareCmdCore "libsvtav1" videoArgs (prepareAudioArgs m.audioInfo)
          m.filePath outPath)

/-! ## EncodeJob lifecycle: `_verify`, `_delete_encoded`, `_replace_original`,
`clean_up`, `_encode`, `encode_wrapper` (src/encoder/encoders/encoder.py) and
the per-status handling of `BatchEncoder.encode_videos` (src/batch_encoding.py).

Filesystem state is explicit; outcomes of external calls (ffmpeg exit, VMAF
probe/score, unlink/rename success) are oracle inputs. -/

/-- The slice of the filesystem the job touches: the original file, the
temporary output (`output_tmp_file`) and the final path (`new_file_path`). -/
structure FS where
  origPresent : Bool
  origSize : Nat
  tmpPresent : Bool
  tmpSize : Nat
  finalPresent : Bool
deriving DecidableEq, Repr

/-- Job configuration fields of `CRFEncoder` that drive `clean_up`. -/
structure JobCfg where
  verify : Bool
  deleteThreshold : Rat
  checkSize : Bool
  deleteOriginal : Bool
deriving Repr

/-- Outcomes of the external calls made during one job. -/
structure RunOracle where
  /-- ffmpeg exit code is zero (`subprocess.run(..., check=True)` succeeded). -/
  exitZero : Bool
  /-- the temporary output file exists after the ffmpeg run -/
  tmpCreated : Bool
  /-- its size after the run -/
  tmpSizeAfter : Nat
  /-- `MediaFile(self.output_tmp_file)` construction succeeded in `_verify` -/
  probeOk : Bool
  /-- VMAF score parsed by `MediaFile.compare` (None on any comparison failure) -/
  vmafScore : Option Rat
  /-- `self.output_tmp_file.unlink()` in `_delete_encoded` succeeded -/
  unlinkTmpOk : Bool
  /-- `self.media_file.file_path.unlink()` in `_replace_original` succeeded -/
  unlinkOrigOk : Bool
  /-- `self.output_tmp_file.replace(self.new_file_path)` succeeded -/
  renameOk : Bool
deriving Repr

/-- `CRFEncoder._verify`: SUCCESS when verification is off; FAILED when the
encoded file cannot be probed or no VMAF score is obtained; LOWQUALITY when the
score is strictly below `delete_threshold`; SUCCESS otherwise. -/
def verifyStep (cfg : JobCfg) (oc : RunOracle) : EncodingStatus :=
  if cfg.verify then
    if !oc.probeOk then .failed
    else
      match oc.vmafScore with
      | some v => if v < cfg.deleteThreshold then .lowquality else .success
      | none => .failed
  else .success

/-- `CRFEncoder._delete_encoded`: unlink the temp file if it exists; a
PermissionError/OSError is swallowed (returns false, file retained). -/
def deleteEncoded (fs : FS) (unlinkOk : Bool) : FS × Bool :=
  if fs.tmpPresent then
    if unlinkOk then ({ fs with tmpPresent := false }, true) else (fs, false)
  else (fs, true)

/-- `CRFEncoder._replace_original`: if the temp file exists, delete the
original then rename the temp onto the final path; any OSError inside the try
block yields FAILED (if the original unlink already happened, the original is
gone).  When the temp file does not exist the function only logs and still
returns SUCCESS. -/
def replaceOriginal (fs : FS) (oc : RunOracle) : FS × EncodingStatus :=
  if fs.tmpPresent then
    if fs.origPresent ∧ oc.unlinkOrigOk then
      let fs1 := { fs with origPresent := false }
      if oc.renameOk then
        ({ fs1 with tmpPresent := false, finalPresent := true }, .success)
      else (fs1, .failed)
    else (fs, .failed)
  else (fs, .success)

/-- `CRFEncoder.clean_up` (src/encoder/encoders/encoder.py, lines 429-484).
On SUCCESS input: optional VMAF verification (LOWQUALITY/FAILED veto the
replacement), optional size check (`encoded_size >= original_size` becomes
LARGESIZE; a missing file raises FileNotFoundError, and the handler sets FAILED
exactly when the temp file is missing), then the replacement when still allowed.
On FAILED input: the temp file is deleted.  Every other status is returned
unchanged. -/
def cleanUp (cfg : JobCfg) (oc : RunOracle) (fs : FS) (status : EncodingStatus) :
    EncodingStatus × FS :=
  if status = .success then
    let status1 := if cfg.verify then verifyStep cfg oc else .success
    let replaceFile1 : Bool :=
      if cfg.verify ∧ (status1 = .lowquality ∨ status1 = .failed) then false
      else cfg.deleteOriginal
    let sizeChecked : EncodingStatus × Bool :=
      if cfg.checkSize ∧ status1 = .success then
        if fs.origPresent ∧ fs.tmpPresent then
          if fs.tmpSize ≥ fs.origSize then (.largesize, false)
          else (status1, replaceFile1)
        else
          -- FileNotFoundError from `stat`: FAILED exactly when the temp is gone
          (if !fs.tmpPresent then .failed else status1, replaceFile1)
      else (status1, replaceFile1)
    let status2 := sizeChecked.1
    let replaceFile2 := sizeChecked.2
    if replaceFile2 ∧ status2 = .success then
      let r := replaceOriginal fs oc
      (r.2, r.1)
    else (status2, fs)
  else if status = .failed then
    let r := deleteEncoded fs oc.unlinkTmpOk
    (.failed, r.1)
  else (status, fs)

/-- Result of `encode_wrapper`: terminal status, filesystem state, and whether
the ffmpeg transcode subprocess was started. -/
structure WrapResult where
  status : EncodingStatus
  fs : FS
  invoked : Bool
deriving DecidableEq, Repr

/-- The filesystem state right after the ffmpeg run: the temp file exists (or
not) with its new size. -/
def fsAfterRun (fs : FS) (oc : RunOracle) : FS :=
  { fs with tmpPresent := oc.tmpCreated, tmpSize := oc.tmpSizeAfter }

/-- `CRFEncoder.encode_wrapper` around `CRFEncoder._encode`
(src/encoder/encoders/encoder.py, lines 486-570): a command-preparation
exception or a non-zero ffmpeg exit becomes FAILED; `prepare_cmd() = None`
becomes SKIPPED without starting the subprocess; after a successful run the
size-reduction logging `stat`s both files and divides by the original's size
(a missing file raises FileNotFoundError, a zero-byte original raises
ZeroDivisionError, both caught as FAILED); `clean_up` then produces the
terminal status. -/
def encodeWrapper (cfg : JobCfg) (cmdE : Except String (Option (List String)))
    (oc : RunOracle) (fs : FS) : WrapResult :=
  match cmdE with
  | .error _ =>
    let r := cleanUp cfg oc fs .failed
    ⟨r.1, r.2, false⟩
  | .ok none =>
    let r := cleanUp cfg oc fs .skipped
    ⟨r.1, r.2, false⟩
  | .ok (some _) =>
    let fs1 := fsAfterRun fs oc
    if oc.exitZero then
      if fs1.tmpPresent ∧ fs1.origPresent ∧ fs1.origSize ≠ 0 then
        let r := cleanUp cfg oc fs1 .success
        ⟨r.1, r.2, true⟩
      else
        let r := cleanUp cfg oc fs1 .failed
        ⟨r.1, r.2, true⟩
    else
      let r := cleanUp cfg oc fs1 .failed
      ⟨r.1, r.2, true⟩

/-- What `BatchEncoder.encode_videos` records for one finished job. -/
structure SchedEffect where
  fs : FS
  recordedSuccess : Bool
  recordedFailed : Bool
  recordedSkipped : Bool
deriving DecidableEq, Repr

/-- The attribute read `media_file.file_name` performed by the logging
f-strings of `BatchEncoder.encode_videos` (src/batch_encoding.py, lines 406 and
450).  `MediaFile.__init__` (src/encoder/media.py) defines `file_path` — which
the rest of `encode_videos` itself uses — but no `file_name`, so the read
raises AttributeError. -/
def mediaFileNameRead : Except String Unit :=
  .error "AttributeError: MediaFile object has no attribute file_name"

/-- The per-status handling in the body of `BatchEncoder.encode_videos`
(src/batch_encoding.py, lines 430-467), as written: SUCCESS goes to the success
set, SKIPPED and LARGESIZE to the skipped map, FAILED to the failed set, and
the LARGESIZE branch deletes the temp output when it still exists.  The
LOWQUALITY branch formats `media_file.file_name` in its log message (line 450)
*before* its `encoder._delete_encoded()` call (line 452), so it raises
AttributeError without deleting anything.  All five branches are dead code in
any case: the loop's opening log performs the same undefined-attribute read
before the encoder is even constructed — see `encodeVideosStep`. -/
def schedulerHandle (status : EncodingStatus) (fs : FS) (unlinkOk : Bool) :
    Except String SchedEffect :=
  match status with
  | .success => .ok ⟨fs, true, false, false⟩
  | .skipped => .ok ⟨fs, false, false, true⟩
  | .failed => .ok ⟨fs, false, true, false⟩
  | .lowquality =>
    match mediaFileNameRead with
    | .error e => .error e
    | .ok _ => .ok ⟨(deleteEncoded fs unlinkOk).1, false, false, false⟩
  | .largesize =>
    if fs.tmpPresent then .ok ⟨(deleteEncoded fs unlinkOk).1, false, false, true⟩
    else .ok ⟨fs, false, false, true⟩

/-- One iteration of the `while self.video_queue:` loop of
`BatchEncoder.encode_videos` (src/batch_encoding.py, lines 401-467), given the
outcome the popped job would have produced: the very first statement after the
heap pop formats `media_file.file_name` (line 406), so every iteration raises
AttributeError before the encoder is constructed.  No job is ever run or
handled through the batch scheduler, and nothing in `encode_videos` catches
the exception, so it aborts the whole batch run. -/
def encodeVideosStep (status : EncodingStatus) (fs : FS) (unlinkOk : Bool) :
    Except String SchedEffect :=
  match mediaFileNameRead with
  | .error e => .error e
  | .ok _ => schedulerHandle status fs unlinkOk

/-! ## Batch scheduler state: `save_state` / `load_state` / `reset_state` /
`prepare_video_queue` and `BatchEncoder.__init__` (src/batch_encoding.py). -/

/-- One entry of the persisted priority queue: the tuple
`(-file_size, file_path, media_file)` (the MediaFile payload plays no role in
resume validation). -/
structure QItem where
  negSize : Int
  path : String
deriving DecidableEq, Repr

/-- The pickled state dictionary written by `BatchEncoder.save_state`. -/
structure SavedState where
  directory : String
  successEncodings : List String
  failedEncodings : List String
  skippedVideos : List (String × String)
  videoQueue : List QItem
  minSize : String
  minResolution : Option String
  totalOriginalSize : Nat
  totalEncodedSize : Nat
deriving DecidableEq, Repr

/-- The mutable bookkeeping fields of a `BatchEncoder`. -/
structure BatchFields where
  successEncodings : List String
  failedEncodings : List String
  skippedVideos : List (String × String)
  videoQueue : List QItem
  totalOriginalSize : Nat
  totalEncodedSize : Nat
deriving DecidableEq, Repr

/-- The fields after construction / `reset_state` (all sets, the queue and both
byte counters cleared). -/
def emptyFields : BatchFields := ⟨[], [], [], [], 0, 0⟩

/-- `BatchEncoder.load_state` (src/batch_encoding.py, lines 522-571).
`saved = none` models a missing state file or a pickle failure.  When the saved
directory matches, the instance fields are assigned from the saved state before
validation; an empty saved queue or a `min_size`/`min_resolution` mismatch then
returns False (no resume), leaving those assignments in place. -/
def loadState (saved : Option SavedState) (directory minSize : String)
    (minResolution : Option String) : Bool × BatchFields :=
  match saved with
  | none => (false, emptyFields)
  | some st =>
    if st.directory = directory then
      let fields : BatchFields :=
        ⟨st.successEncodings, st.failedEncodings, st.skippedVideos, st.videoQueue,
         st.totalOriginalSize, st.totalEncodedSize⟩
      if st.videoQueue.length < 1 then (false, fields)
      else if st.minSize ≠ minSize ∨ st.minResolution ≠ minResolution then (false, fields)
      else (true, fields)
    else (false, emptyFields)

/-- A candidate file found by `get_video_files`: its path, size, and the
outcome of `MediaFile(file)` (`none` when construction raised, in which case
`prepare_video_queue` drops the file with only a log line). -/
structure Candidate where
  path : String
  size : Nat
  probe : Option (List VideoStream)
deriving DecidableEq, Repr

/-- The resolution-skip test of `prepare_video_queue`:
`all(video_stream.width and video_stream.height and (width * height <
RESOLUTION.get(min_resolution, 0)) for ...)` — Python truthiness makes a `None`
or `0` dimension defeat the skip. -/
def belowResolutionAll (minResolution : String) (streams : List VideoStream) : Bool :=
  streams.all (fun v =>
    match v.width, v.height with
    | some w, some h =>
      w ≠ 0 && h ≠ 0 && decide (w * h < (RESOLUTION.lookup minResolution).getD 0)
    | _, _ => false)

/-- Accumulator of the `prepare_video_queue` loop: the local `temp_queue` plus
the mutated `self.skipped_videos` map. -/
structure ScanAcc where
  tempQueue : List QItem
  skippedVideos : List (String × String)
deriving DecidableEq, Repr

/-- One iteration of the `prepare_video_queue` loop over a candidate file:
skip files already in the success/failed sets, below the size threshold
(recorded in the skipped map), unprobeable, or — when a minimum resolution is
set — with all streams below the threshold (recorded); otherwise push
`(-size, path)` onto the temp queue. -/
def scanStep (successE failedE : List String) (minSizeBytes : Nat)
    (minResolution : Option String) (acc : ScanAcc) (c : Candidate) : ScanAcc :=
  if successE.contains c.path || failedE.contains c.path then acc
  else if c.size < minSizeBytes then
    { acc with skippedVideos := acc.skippedVideos ++ [(c.path, "below size threshold")] }
  else
    match c.probe with
    | none => acc
    | some streams =>
      match minResolution with
      | some r =>
        if belowResolutionAll r streams then
          { acc with
            skippedVideos := acc.skippedVideos ++ [(c.path, "below resolution threshold")] }
        else { acc with tempQueue := acc.tempQueue ++ [⟨-(c.size : Int), c.path⟩] }
      | none => { acc with tempQueue := acc.tempQueue ++ [⟨-(c.size : Int), c.path⟩] }

/-- `BatchEncoder.prepare_video_queue` (src/batch_encoding.py, lines 341-394):
fold `scanStep` over the discovered files, then replace `self.video_queue` with
the heapified temp queue (heapify permutes; order is irrelevant to the claims,
we keep the list). -/
def prepareVideoQueue (fields : BatchFields) (minSizeBytes : Nat)
    (minResolution : Option String) (cands : List Candidate) : BatchFields :=
  let acc := cands.foldl
    (scanStep fields.successEncodings fields.failedEncodings minSizeBytes minResolution)
    ⟨[], fields.skippedVideos⟩
  { fields with videoQueue := acc.tempQueue, skippedVideos := acc.skippedVideos }

/-- The resume/reset decision of `BatchEncoder.__init__` (src/batch_encoding.py,
lines 299-306): `if not force_reset and self.load_state(): resume` else
`reset_state(); prepare_video_queue()`.  `reset_state` clears every field, so
the fresh scan starts from `emptyFields`. -/
def batchInit (saved : Option SavedState) (forceReset : Bool)
    (directory minSize : String) (minSizeBytes : Nat) (minResolution : Option String)
    (cands : List Candidate) : BatchFields :=
  let r := loadState saved directory minSize minResolution
  if !forceReset && r.1 then r.2
  else prepareVideoQueue emptyFields minSizeBytes minResolution cands

/-! ## `BatchEncoder.parse_size` (src/batch_encoding.py, lines 587-606) -/

/-- Digit run to a natural number (`int` on a decimal digit string). -/
def digitsToNat (cs : List Char) : Nat :=
  cs.foldl (fun acc c => acc * 10 + (c.toNat - '0'.toNat)) 0

/-- Python `float(value)` for the strings produced by the `([\d\.]+)` group:
digits with at most one dot, and at least one digit.  Anything else ("",
".", two dots) raises ValueError, modelled as `none`.  The float's exact value
is returned as an unreduced fraction (numerator, power-of-ten denominator):
`ip.fp = (ip * 10^k + fp) / 10^k`. -/
def parseDecimal (s : String) : Option (Nat × Nat) :=
  let cs := s.data
  if cs.isEmpty then none
  else if !(cs.all fun c => c.isDigit || c = '.') then none
  else
    match (cs.filter (fun c => c = '.')).length with
    | 0 => some (digitsToNat cs, 1)
    | 1 =>
      let ip := cs.takeWhile (fun c => c ≠ '.')
      let fp := (cs.dropWhile (fun c => c ≠ '.')).tail
      if ip.isEmpty && fp.isEmpty then none
      else some (digitsToNat ip * 10 ^ fp.length + digitsToNat fp, 10 ^ fp.length)
    | _ => none

/-- Python `int()` on a rational-valued float: truncation toward zero
(`Int.tdiv`; e.g. `int(-3.5) = -3`). -/
def pyInt (q : Rat) : Int := q.num.tdiv q.den

/-- Python `str.lower()` (character-wise; the inputs here are ASCII). -/
def pyLower (s : String) : String := ⟨s.data.map Char.toLower⟩

/-- Python `str.strip()`: drop whitespace from both ends. -/
def pyStrip (s : String) : String :=
  ⟨((s.data.dropWhile Char.isWhitespace).reverse.dropWhile Char.isWhitespace).reverse⟩

/-- Model of `re.match(r"([\d\.]+)\s*([kmgt]?b)", size)`: a non-empty leading
run of digits/dots, optional whitespace, then a unit — one of `k m g t`
followed by `b`, or a bare `b`.  Greedy matching of `[\d\.]+` is equivalent to
the longest run (giving characters back can never let `\s*([kmgt]?b)` match a
digit or a dot). -/
def parseSizeMatch (s : String) : Option (String × String) :=
  let cs := s.data
  let valueCs := cs.takeWhile (fun c => c.isDigit || c = '.')
  if valueCs.isEmpty then none
  else
    let rest := (cs.drop valueCs.length).dropWhile (fun c => c.isWhitespace)
    match rest with
    | c1 :: c2 :: _ =>
      if (c1 = 'k' || c1 = 'm' || c1 = 'g' || c1 = 't') && c2 = 'b' then
        some (⟨valueCs⟩, ⟨[c1, c2]⟩)
      else if c1 = 'b' then some (⟨valueCs⟩, "b")
      else none
    | [c1] => if c1 = 'b' then some (⟨valueCs⟩, "b") else none
    | [] => none

/-- `size_map` from `parse_size`; note the absence of a `"tb"` entry. -/
def sizeMap : List (String × Nat) :=
  [("kb", 1024), ("mb", 1048576), ("gb", 1073741824), ("b", 1)]

/-- The input to `parse_size`: an int/float (already bytes) or a string. -/
inductive SizeInput
  | num (q : Rat)
  | str (s : String)
deriving Repr

/-- `BatchEncoder.parse_size`: ints/floats pass through `int()`; strings are
stripped, lowercased and matched; on a match the value is converted with
`float` and multiplied by `size_map.get(unit, 1)` (so a matched but unmapped
unit such as "tb" multiplies by 1); no match raises ValueError.  A ValueError
from `float(value)` (e.g. the value "..") propagates uncaught. -/
def parseSize : SizeInput → Except String Int
  | .num q => .ok (pyInt q)
  | .str s0 =>
    let s := pyLower (pyStrip s0)
    match parseSizeMatch s with
    | some vu =>
      match parseDecimal vu.1 with
      | some nd =>
        -- int(float(value) * multiplier): the value is the exact nonnegative
        -- fraction nd.1 / nd.2, so the truncation is Nat division
        .ok (((nd.1 * ((sizeMap.lookup vu.2).getD 1)) / nd.2 : Nat) : Int)
      | none => .error "ValueError: could not convert string to float"
    | none => .error "ValueError: Invalid size format"

/-! ## `MediaFile.get_video_info` (src/encoder/media.py, lines 224-355) -/

/-- One raw video-stream entry of the ffprobe JSON, after the `int` conversion
loop of `get_video_info` (a value that is `null` or fails `int()` becomes
`None`; ffprobe always emits the `index` key, so the plain `stream["index"]`
read never raises KeyError). -/
structure ProbeStream where
  codecType : Option String
  codecName : Option String
  tagString : Option String
  index : Option Int
  width : Option Nat
  height : Option Nat
  duration : Option String
  pixFmt : Option String
  rFrameRate : Option String
  nbFrames : Option String
deriving DecidableEq, Repr

/-- Model of `re.match(r"(\d+)/(\d+)", frame_rate_str)`: a non-empty leading
digit run, a slash, a non-empty digit run; groups are the two numbers.  The
greedy `\d+` cannot usefully backtrack (a digit is never `/`). -/
def parseFrac (s : String) : Option (Nat × Nat) :=
  let cs := s.data
  let ds1 := cs.takeWhile Char.isDigit
  if ds1.isEmpty then none
  else
    match cs.drop ds1.length with
    | '/' :: rest2 =>
      let ds2 := rest2.takeWhile Char.isDigit
      if ds2.isEmpty then none else some (digitsToNat ds1, digitsToNat ds2)
    | _ => none

/-- The known still-image codec set of `get_video_info`. -/
def stillImageCodecs : List String :=
  ["png", "mjpeg", "bmp", "gif", "tiff", "jpegxl", "webp", "heif", "avif"]

/-- The state of the Python locals `frame_rate` / `frame_match` across the
stream loop of `get_video_info`.  They are (re)assigned only when the current
stream has a truthy `r_frame_rate`, so a stream without one sees the values
left over from an earlier iteration:
`none` — never assigned yet (reading raises UnboundLocalError);
`some none` — `frame_match` failed, `frame_rate = None`;
`some (some (n, d))` — matched groups `(n, d)`, `frame_rate` is the float
`0 if d == 0 else n / d`. -/
def FrVars : Type := Option (Option (Nat × Nat))

/-- `frame_rate` truthiness for the exclusion test: a float that is not `None`
and not zero — i.e. matched groups with both numbers non-zero. -/
def frTruthy : Option (Nat × Nat) → Bool
  | some (n, d) => n ≠ 0 && d ≠ 0
  | none => false

/-- `frame_rate == 0`: `None == 0` is False; the float is zero exactly when the
numerator or denominator is zero. -/
def frIsZero : Option (Nat × Nat) → Bool
  | some (n, d) => n = 0 || d = 0
  | none => false

/-- The invalid-stream test of `get_video_info` for one stream, given the
current `frame_rate`/`frame_match` values:
`codec_type != "video" or codec in still-image set or (frame_rate and
group(2) == group(1)) or nb_frames == "1" or frame_rate == 0 or index is None`. -/
def streamExcluded (s : ProbeStream) (fm : Option (Nat × Nat)) : Bool :=
  decide (s.codecType ≠ some "video")
  || (match s.codecName with
      | some c => stillImageCodecs.contains c
      | none => false)
  || (frTruthy fm && (match fm with
      | some (n, d) => d = n
      | none => false))
  || decide (s.nbFrames = some "1")
  || frIsZero fm
  || decide (s.index = none)

/-- The `VideoStream` built for one probe stream (`ffmpeg_index` is the
running `index_counter`, incremented for every stream, excluded ones
included). -/
def mkVideoStream (s : ProbeStream) (ffIdx : Nat) (fm : Option (Nat × Nat)) :
    VideoStream :=
  { index := s.index, ffmpegIndex := ffIdx, codec := s.codecName,
    tag := s.tagString, width := s.width, height := s.height,
    frameRate := fm, duration := s.duration, pixFmt := s.pixFmt }

/-- The stream loop of `get_video_info`: update the `frame_rate`/`frame_match`
locals when `r_frame_rate` is truthy (a non-empty string), build the
`VideoStream` (reading the locals — UnboundLocalError when still unassigned),
and keep it unless excluded. -/
def getVideoInfoGo : List ProbeStream → FrVars → Nat → List VideoStream →
    Except String (List VideoStream)
  | [], _, _, acc => .ok acc.reverse
  | s :: rest, vars, idx, acc =>
    let vars1 : FrVars :=
      match s.rFrameRate with
      | some str => if str ≠ "" then some (parseFrac str) else vars
      | none => vars
    match vars1 with
    | none => .error "UnboundLocalError: local variable frame_rate referenced before assignment"
    | some fm =>
      let acc1 := if streamExcluded s fm then acc else mkVideoStream s idx fm :: acc
      getVideoInfoGo rest vars1 (idx + 1) acc1

/-- `MediaFile.get_video_info` over the parsed ffprobe stream list.  An
UnboundLocalError propagates out of the method (only CalledProcessError and
JSONDecodeError are caught). -/
def getVideoInfo (streams : List ProbeStream) : Except String (List VideoStream) :=
  getVideoInfoGo streams none 0 []

/-- The `video_info` part of `MediaFile.__init__`: run `get_video_info` and
raise ValueError when no usable stream remains. -/
def mediaFileVideoInfo (streams : List ProbeStream) : Except String (List VideoStream) :=
  match getVideoInfo streams with
  | .error e => .error e
  | .ok vs =>
    if vs.isEmpty then .error "ValueError: no valid video stream" else .ok vs

/-! ## `CustomEncoder` (src/encoder/encoders/custom_encoder.py) -/

/-- `CustomEncoder.get_duration`: `video_info[0].duration`, `float`-converted;
`None` and 0 yield `None`.  The `duration` attribute holds the raw ffprobe
string (media.py never converts it), so `float` can raise ValueError on a
malformed string. -/
def getDuration (videoInfo : List VideoStream) : Except String (Option (Nat × Nat)) :=
  match videoInfo.head? with
  | none => .error "IndexError: list index out of range"
  | some v =>
    match v.duration with
    | none => .ok none
    | some s =>
      match parseDecimal s with
      | none => .error "ValueError: could not convert string to float"
      | some nd => .ok (if nd.1 = 0 then none else some nd)

/-- `CustomEncoder.get_num_frames`: the loop body reads
`video_stream.is_metadata` and `video_stream.num_frames` — attributes the
`VideoStream` dataclass in src/encoder/media.py does not define — so the first
iteration raises AttributeError; only an empty `video_info` returns 0. -/
def getNumFrames (videoInfo : List VideoStream) : Except String Nat :=
  match videoInfo with
  | [] => .ok 0
  | _ :: _ => .error "AttributeError: VideoStream object has no attribute is_metadata"

/-- The progress-tracking strategies of `CustomEncoder`. -/
inductive ProgressMode
  | time
  | frame
  | noTracking
deriving DecidableEq, Repr

/-- `CustomEncoder._find_progress_mode`: TIME when a duration is known (the
duration is the exact fractional value (num, den) of the float), else FRAME
when a positive total frame count is known, else no tracking (and no progress
bar). -/
def findProgressMode (duration : Option (Nat × Nat)) (totalFrames : Nat) :
    ProgressMode × Bool :=
  match duration with
  | some _ => (.time, true)
  | none => if totalFrames > 0 then (.frame, true) else (.noTracking, false)

/-- What the progress loop extracts from one ffmpeg stdout line. -/
structure ProgLine where
  /-- the line contains "out_time=N/A" -/
  hasOutTimeNA : Bool
  /-- `re.search(r"time=(\d+):(\d+):(\d+\.\d+)", line)` succeeded -/
  hasTimeMatch : Bool
  /-- `re.search(r"frame=\s*(\d+)", line)` groups -/
  frameMatch : Option Nat
deriving DecidableEq, Repr

/-- `CustomEncoder._time_progress_update` returns False exactly on an
"out_time=N/A" line: with a time match the groups `\d+` always convert, and a
line without a match falls through to `return True`. -/
def timeUpdateValid (line : ProgLine) : Bool := !line.hasOutTimeNA

/-- `CustomEncoder._frame_progress_update` returns False only when
`int(match.group(1))` raises — impossible for a `\d+` group — so every line is
a valid update. -/
def frameUpdateValid (_line : ProgLine) : Bool := true

/-- State of the progress loop in `CustomEncoder._encode`: active mode, whether
a progress bar object is open, and the running invalid-update count
(`num_invalid`, reset only when a fallback fires — never by a valid update). -/
structure LoopState where
  mode : ProgressMode
  pbarOpen : Bool
  numInvalid : Nat
deriving DecidableEq, Repr

/-- One iteration of the `for line in process.stdout` loop
(src/encoder/encoders/custom_encoder.py, lines 354-376).  TIME falls back via
`_find_progress_mode(None, total_frames)` after `max_tolerance = 2` invalid
updates; the FRAME fallback branch reassigns `pbar` to the new value (None)
*before* calling `pbar.leave`/`pbar.close()`, which would raise AttributeError
— dead code, since `frameUpdateValid` is constantly true. -/
def progressStep (totalFrames : Nat) (st : LoopState) (line : ProgLine) :
    Except String LoopState :=
  match st.mode with
  | .time =>
    let n := if timeUpdateValid line then st.numInvalid else st.numInvalid + 1
    if n ≥ 2 then
      let r := findProgressMode none totalFrames
      .ok ⟨r.1, r.2, 0⟩
    else .ok { st with numInvalid := n }
  | .frame =>
    let n := if frameUpdateValid line then st.numInvalid else st.numInvalid + 1
    if n ≥ 2 then
      -- `mode, pbar = self._find_progress_mode(duration=None, total_frames=0)`
      -- then `pbar.leave = False` on the fresh pbar, which is None here
      .error "AttributeError: NoneType object has no attribute leave"
    else .ok { st with numInvalid := n }
  | .noTracking =>
    .ok (if st.pbarOpen then { st with pbarOpen := false } else st)

/-- The whole progress loop over the subprocess's stdout lines. -/
def progressLoop (totalFrames : Nat) (st : LoopState) :
    List ProgLine → Except String LoopState
  | [] => .ok st
  | line :: rest =>
    match progressStep totalFrames st line with
    | .error e => .error e
    | .ok st1 => progressLoop totalFrames st1 rest

/-- `CustomEncoder._encode` (src/encoder/encoders/custom_encoder.py, lines
313-406).  Results pair the Python outcome (`Except` for an uncaught exception
inside `_encode`, which `encode_wrapper` converts to FAILED) with whether the
ffmpeg subprocess was started.  Note the source order: `get_duration()`, then
`get_num_frames()` (which raises AttributeError for every non-empty
`video_info`), then the debug f-string `f"{duration:.2f}"` (which raises
TypeError whenever `duration` is None) — all before any subprocess is
spawned. -/
def customEncode (cmd : Option (List String)) (videoInfo : List VideoStream)
    (lines : List ProgLine) (exitZero : Bool) : Except String EncodingStatus × Bool :=
  match cmd with
  | none => (.ok .skipped, false)
  | some _ =>
    match getDuration videoInfo with
    | .error e => (.error e, false)
    | .ok duration =>
      match getNumFrames videoInfo with
      | .error e => (.error e, false)
      | .ok totalFrames =>
        match duration with
        | none =>
          (.error "TypeError: unsupported format string passed to NoneType.__format__",
           false)
        | some d =>
          let mp := findProgressMode (some d) totalFrames
          if mp.1 ≠ .noTracking then
            match progressLoop totalFrames ⟨mp.1, mp.2, 0⟩ lines with
            | .error e => (.error e, true)
            | .ok _ =>
              if exitZero then (.ok .success, true)
              else (.error "CalledProcessError", true)
          else
            if exitZero then (.ok .success, true) else (.error "CalledProcessError", true)

/-- `CRFEncoder.encode_wrapper` around `CustomEncoder._encode`: the uncaught
exception from `_encode` (AttributeError/TypeError/CalledProcessError) is
caught by the wrapper's generic handler and becomes FAILED; a SKIPPED or
SUCCESS result is handled as in the base wrapper. -/
def customEncodeWrapper (cfg : JobCfg) (cmd : Option (List String))
    (videoInfo : List VideoStream) (lines : List ProgLine) (oc : RunOracle) (fs : FS) :
    WrapResult :=
  match customEncode cmd videoInfo lines oc.exitZero with
  | (.ok .skipped, inv) =>
    let r := cleanUp cfg oc fs .skipped
    ⟨r.1, r.2, inv⟩
  | (.ok _, inv) =>
    let fs1 := fsAfterRun fs oc
    if fs1.tmpPresent ∧ fs1.origPresent ∧ fs1.origSize ≠ 0 then
      let r := cleanUp cfg oc fs1 .success
      ⟨r.1, r.2, inv⟩
    else
      let r := cleanUp cfg oc fs1 .failed
      ⟨r.1, r.2, inv⟩
  | (.error _, inv) =>
    let fsE := if inv then fsAfterRun fs oc else fs
    let r := cleanUp cfg oc fsE .failed
    ⟨r.1, r.2, inv⟩

/-! ## Per-stream frame-rate view and the claim's usable-stream predicate -/

/-- The frame-rate groups a stream would get from its *own* `r_frame_rate`
field (the spec's reading): `none` when the field is absent, empty, or fails
the `(\d+)/(\d+)` match. -/
def ownFr (s : ProbeStream) : Option (Nat × Nat) :=
  match s.rFrameRate with
  | some str => if str ≠ "" then parseFrac str else none
  | none => none

/-- "Degenerate frame rate" in the claim's words: the frame rate is zero, or
the rational has numerator equal to denominator. -/
def frDegenerate : Option (Nat × Nat) → Bool
  | some (n, d) => n = 0 || d = 0 || d = n
  | none => false

/-- The usable-stream predicate as claim C9 words it: a video-type stream with
an index, a codec outside the still-image set, its own frame rate neither zero
nor 1:1, and not reported single-frame. -/
def claimC9Usable (s : ProbeStream) : Bool :=
  decide (s.codecType = some "video")
  && decide (s.index ≠ none)
  && !(match s.codecName with
       | some c => stillImageCodecs.contains c
       | none => false)
  && !frDegenerate (ownFr s)
  && decide (s.nbFrames ≠ some "1")

/-- The usable list `get_video_info` computes when every stream carries its own
(non-empty) `r_frame_rate`: per-stream filtering with the stream's own parsed
frame rate, `ffmpeg_index` numbering every probe stream in order. -/
def usableStreams (streams : List ProbeStream) : List VideoStream :=
  (streams.enum).filterMap fun p =>
    if streamExcluded p.2 (ownFr p.2) then none
    else some (mkVideoStream p.2 p.1 (ownFr p.2))

/-! ## Concrete example values shared by witnesses and counterexamples -/

/-- An H.264 1080p stream (not in any efficient-codec ignore set). -/
def exStream264 : VideoStream :=
  { index := some 0, ffmpegIndex := 0, codec := some "h264", tag := some "avc1",
    width := some 1920, height := some 1080, frameRate := some (30, 1),
    duration := some "10.0", pixFmt := some "yuv420p" }

/-- An H.264 stream whose duration ffprobe did not report. -/
def exStream264NoDur : VideoStream :=
  { exStream264 with duration := none }

/-- An HEVC stream with the modern `hvc1` tag. -/
def exStreamHevc : VideoStream :=
  { exStream264 with codec := some "hevc", tag := some "hvc1" }

/-- An HEVC stream with the legacy `hev1` tag. -/
def exStreamHev1 : VideoStream :=
  { exStream264 with codec := some "hevc", tag := some "hev1" }

/-- An AAC audio stream (compatible set). -/
def exAudioAac : AudioStream :=
  { codec := some "aac", ffmpegIndex := 0, index := some 1, bitRate := some 128,
    sampleRate := some 48000 }

/-- The batch run's efficient-codec ignore set (`BatchEncoder.EFFICIENT_CODEC`). -/
def efficientCodecs : List String := ["av1", "hevc", "vp9", "vvc", "theora"]

/-- A probe stream for a plain H.264 video stream with a degenerate 1/1 frame
rate (excluded by code and claim alike). -/
def exProbe11 : ProbeStream :=
  { codecType := some "video", codecName := some "h264", tagString := some "avc1",
    index := some 0, width := some 1920, height := some 1080,
    duration := some "10.0", pixFmt := some "yuv420p",
    rFrameRate := some "1/1", nbFrames := none }

/-- The same stream at index 1 but with no `r_frame_rate` reported: none of the
claim's exclusion conditions applies to it. -/
def exProbeNoFr : ProbeStream :=
  { exProbe11 with index := some 1, rFrameRate := none }

/-- A normal 30000/1001 h264 probe stream. -/
def exProbeH264 : ProbeStream :=
  { exProbe11 with rFrameRate := some "30000/1001" }

/-- A png cover-art probe stream (still-image codec). -/
def exProbePng : ProbeStream :=
  { exProbe11 with index := some 1, codecName := some "png", rFrameRate := some "30000/1001" }

/-- A probe stream with an unknown (0/0) frame rate. -/
def exProbeZeroFr : ProbeStream :=
  { exProbe11 with index := some 2, rFrameRate := some "0/0" }

/-! ## Helper lemmas -/

lemma ne_of_data_head {a b : String} (h : a.data.head? ≠ b.data.head?) : a ≠ b :=
  fun e => h (by rw [e])

lemma data_head_append (p s : String) (hp : p.data ≠ []) :
    (p ++ s).data.head? = p.data.head? := by
  rw [String.data_append]
  cases hd : p.data with
  | nil => exact absurd hd hp
  | cons c cs => simp

/-- A string with a literal non-empty left part differs from any string whose
first character differs. -/
lemma pre_ne (p t s : String) (hp : p.data ≠ []) (h : p.data.head? ≠ t.data.head?) :
    p ++ s ≠ t :=
  ne_of_data_head (by rw [data_head_append p s hp]; exact h)

/-- A string with a literal non-empty right part differs from any string whose
last character differs. -/
lemma suf_ne (s k t : String) (hk : k.data ≠ []) (h : k.data.getLast? ≠ t.data.getLast?) :
    s ++ k ≠ t := by
  intro e
  apply h
  rw [← e, String.data_append, List.getLast?_append_of_ne_nil _ hk]

/-! ## C10: `parse_size` -/

/-- The Nat-division form used by the model is exactly Python's
`int(float(value) * multiplier)` on the exact nonnegative value `n / d`. -/
lemma natDiv_eq_pyInt_mul (n d m : Nat) (hd : d ≠ 0) :
    ((n * m / d : Nat) : Int) = pyInt (((n : Rat) / (d : Rat)) * (m : Rat)) := by
  have hq : ((n : Rat) / (d : Rat)) * (m : Rat) = ((n * m : Nat) : Rat) / ((d : Nat) : Rat) := by
    push_cast
    ring
  rw [hq]
  have h0 : (0 : Rat) ≤ ((n * m : Nat) : Rat) / ((d : Nat) : Rat) := by positivity
  have hnum : 0 ≤ (((n * m : Nat) : Rat) / ((d : Nat) : Rat)).num := Rat.num_nonneg.mpr h0
  unfold pyInt
  rw [Int.tdiv_eq_ediv hnum (by positivity), ← Rat.floor_def,
    Rat.floor_natCast_div_natCast]
  exact (Int.ofNat_tdiv _ _).symm

/-- **C10.**  `BatchEncoder.parse_size` returns `int(number × unit)` for a
numeric prefix with suffix b/kb/mb/gb (multipliers 1, 1024, 1048576,
1073741824, case-insensitive via `.lower()`), returns `int(size)` for an
int/float input, raises ValueError for a string its regex does not match, and
— because "tb" is accepted by the regex but absent from `size_map` — returns
the bare number for a "tb" suffix, so `parse_size("1TB") = 1`. -/
theorem C10_parse_size :
    (∀ q : Rat, parseSize (.num q) = .ok (pyInt q)) ∧
    (∀ s value unit n d, parseSizeMatch (pyLower (pyStrip s)) = some (value, unit) →
      parseDecimal value = some (n, d) → d ≠ 0 →
      parseSize (.str s) =
        .ok (pyInt (((n : Rat) / (d : Rat)) *
          (((sizeMap.lookup unit).getD 1 : Nat) : Rat)))) ∧
    (∀ s, parseSizeMatch (pyLower (pyStrip s)) = none →
      parseSize (.str s) = .error "ValueError: Invalid size format") ∧
    (sizeMap.lookup "b" = some 1 ∧ sizeMap.lookup "kb" = some 1024 ∧
     sizeMap.lookup "mb" = some 1048576 ∧ sizeMap.lookup "gb" = some 1073741824 ∧
     sizeMap.lookup "tb" = none) ∧
    parseSize (.str "1TB") = .ok 1 := by
  refine ⟨fun q => rfl, ?_, ?_, ⟨rfl, rfl, rfl, rfl, rfl⟩, rfl⟩
  · intro s value unit n d hm hd hdne
    simp only [parseSize, hm, hd]
    rw [natDiv_eq_pyInt_mul n d _ hdne]
  · intro s hm
    simp only [parseSize, hm]

/-- Witness for C10 at concrete inputs: `parse_size(7) = 7`,
`parse_size("100MB") = 104857600`, `parse_size("  1.5 Kb ") = 1536`,
`parse_size("abc")` raises. -/
theorem C10_parse_size_witness :
    parseSize (.num 7) = .ok (pyInt 7) ∧
    parseSize (.str "100MB") = .ok 104857600 ∧
    parseSize (.str "  1.5 Kb ") = .ok 1536 ∧
    parseSize (.str "abc") = .error "ValueError: Invalid size format" := by
  refine ⟨C10_parse_size.1 7, ?_, ?_, C10_parse_size.2.2.1 "abc" rfl⟩
  · have h := C10_parse_size.2.1 "100MB" "100" "mb" 100 1 rfl rfl (by decide)
    rw [h, ← natDiv_eq_pyInt_mul 100 1 _ (by decide)]
    rfl
  · have h := C10_parse_size.2.1 "  1.5 Kb " "1.5" "kb" 15 10 rfl rfl (by decide)
    rw [h, ← natDiv_eq_pyInt_mul 15 10 _ (by decide)]
    rfl

/-! ## C6: explicit CRF/preset override and clamping -/

/-- **C6 counterexample.**  The claim says a caller-supplied CRF is clamped to
the codec's valid range before being placed into the command; for HEVC
(libx265, valid CRF 0–51) `HevcEncoder.__init__` performs no clamping at all:
a supplied CRF of 100 is stored unchanged and the literal "100" is placed after
"-crf" in the stream's arguments. -/
theorem C6_counterexample :
    hevcInitCrf (some 100) = some 100 ∧
    hevcVideoArgsOne ⟨hevcInitCrf (some 100), some "medium", efficientCodecs⟩
        exStream264 0 =
      ["-map", "0:v:0", "-c:v:0", "libx265", "-preset", "medium", "-tag:v", "hvc1",
       "-crf", "100"] ∧
    ¬ ((100 : Int) ≤ 51) := by
  exact ⟨rfl, rfl, by decide⟩

/-- **C6 amended.**  An explicitly supplied CRF/preset always overrides the
resolution-bucketed default; for SVT-AV1 a *non-zero* supplied CRF is clamped
into 1–63 and a non-zero preset into 1–13, for libaom-AV1 a non-zero CRF into
1–63 and a non-zero preset into 0–8; a supplied value of 0 bypasses the clamp
(Python `if crf:`), and HEVC performs no clamping, placing the supplied value
into the command as-is. -/
theorem C6_amended :
    (∀ defaults v (c : Int), getCrf (some c) defaults v = toString c) ∧
    (∀ defaults v (p : Int), getPresetInt (some p) defaults v = toString p) ∧
    (∀ defaults v (p : String), getPresetStr (some p) defaults v = p) ∧
    (∀ c : Int, c ≠ 0 →
      svtInitCrf (some c) = some (max 1 (min c 63)) ∧
      1 ≤ max 1 (min c 63) ∧ max 1 (min c 63) ≤ 63) ∧
    (∀ p : Int, p ≠ 0 →
      svtInitPreset (some p) = some (max 1 (min p 13)) ∧
      1 ≤ max 1 (min p 13) ∧ max 1 (min p 13) ≤ 13) ∧
    (∀ c : Int, c ≠ 0 →
      libaomInitCrf (some c) = some (max 1 (min c 63)) ∧
      1 ≤ max 1 (min c 63) ∧ max 1 (min c 63) ≤ 63) ∧
    (∀ p : Int, p ≠ 0 →
      libaomInitPreset (some p) = some (max 0 (min p 8)) ∧
      0 ≤ max 0 (min p 8) ∧ max 0 (min p 8) ≤ 8) ∧
    (svtInitCrf (some 0) = some 0 ∧ svtInitPreset (some 0) = some 0 ∧
     libaomInitCrf (some 0) = some 0 ∧ libaomInitPreset (some 0) = some 0) ∧
    (∀ c : Int, hevcInitCrf (some c) = some c) ∧
    (∀ p : String, hevcInitPreset (some p) = some p) := by
  refine ⟨fun _ _ _ => rfl, fun _ _ _ => rfl, fun _ _ _ => rfl, ?_, ?_, ?_, ?_,
    ⟨rfl, rfl, rfl, rfl⟩, fun _ => rfl, fun _ => rfl⟩
  · intro c hc
    refine ⟨by simp [svtInitCrf, hc], le_max_left 1 _, max_le (by omega) (min_le_right c 63)⟩
  · intro p hp
    refine ⟨by simp [svtInitPreset, hp], le_max_left 1 _, max_le (by omega) (min_le_right p 13)⟩
  · intro c hc
    refine ⟨by simp [libaomInitCrf, hc], le_max_left 1 _, max_le (by omega) (min_le_right c 63)⟩
  · intro p hp
    refine ⟨by simp [libaomInitPreset, hp], le_max_left 0 _, max_le (by omega) (min_le_right p 8)⟩

/-- Witness for C6 amended: a supplied CRF of 80 overrides and clamps to 63 for
SVT-AV1, and the override equalities evaluate at concrete values. -/
theorem C6_amended_witness :
    ((80 : Int) ≠ 0 ∧ svtInitCrf (some 80) = some 63) ∧
    getCrf (some 41) svtDefaultCrf exStream264 = "41" ∧
    getPresetInt (some 7) svtDefaultPreset exStream264 = "7" := by
  refine ⟨⟨by decide, ?_⟩, C6_amended.1 svtDefaultCrf exStream264 41,
    C6_amended.2.1 svtDefaultPreset exStream264 7⟩
  exact ((C6_amended.2.2.2.1 80 (by decide)).1).trans (by rfl)

/-! ## C1: `prepare_cmd` returns "no command" exactly for all-copy files,
and SKIPPED is reached exactly then -/

lemma contains_iff_mem (l : List String) (a : String) : l.contains a = true ↔ a ∈ l := by
  simp

/-- Membership in the flattened per-stream lists, when the per-stream
characterization does not depend on the stream counter. -/
lemma mem_flatten_enum_iff {α : Type} (f : Nat → α → List String) (x : String)
    (P : α → Prop) (hP : ∀ i v, x ∈ f i v ↔ P v) :
    ∀ (l : List α) (n : Nat),
      (x ∈ ((List.enumFrom n l).map fun p => f p.1 p.2).flatten ↔ ∃ v ∈ l, P v) := by
  intro l
  induction l with
  | nil => intro n; simp
  | cons v rest ih =>
    intro n
    simp only [List.enumFrom, List.map_cons, List.flatten_cons, List.mem_append,
      hP n v, ih (n + 1), List.mem_cons]
    constructor
    · rintro (h | ⟨w, hw, hPw⟩)
      · exact ⟨v, Or.inl rfl, h⟩
      · exact ⟨w, Or.inr hw, hPw⟩
    · rintro ⟨w, hw | hw, hPw⟩
      · exact Or.inl (hw ▸ hPw)
      · exact Or.inr ⟨w, hw, hPw⟩

/-- `all` over the enumerated per-stream lists, when the per-stream test does
not depend on the stream counter. -/
lemma all_enum_iff {α : Type} (f : Nat → α → List String) (p : List String → Bool)
    (P : α → Prop) (hP : ∀ i v, p (f i v) = true ↔ P v) :
    ∀ (l : List α) (n : Nat),
      (((List.enumFrom n l).map fun q => f q.1 q.2).all p = true ↔ ∀ v ∈ l, P v) := by
  intro l
  induction l with
  | nil => intro n; simp
  | cons v rest ih =>
    intro n
    simp only [List.enumFrom, List.map_cons, List.all_cons, Bool.and_eq_true,
      hP n v, ih (n + 1), List.mem_cons]
    constructor
    · rintro ⟨h1, h2⟩ w (rfl | hw)
      · exact h1
      · exact h2 w hw
    · intro h
      exact ⟨h v (Or.inl rfl), fun w hw => h w (Or.inr hw)⟩

lemma mem_hevcVideoArgsOne_libx265 (cfg : HevcCfg) (i : Nat) (v : VideoStream) :
    "libx265" ∈ hevcVideoArgsOne cfg v i ↔
      videoCodecIgnored v cfg.ignoreCodec = false := by
  have h1 : ("libx265" : String) ≠ "0:v:" ++ toString v.ffmpegIndex :=
    Ne.symm (pre_ne _ _ _ (by decide) (by decide))
  have h2 : ("libx265" : String) ≠ "-c:v:" ++ toString i :=
    Ne.symm (pre_ne _ _ _ (by decide) (by decide))
  unfold hevcVideoArgsOne videoMapArgs
  cases hig : videoCodecIgnored v cfg.ignoreCodec with
  | false => rw [if_neg (by decide)]; simp
  | true => rw [if_pos rfl]; split_ifs <;> simp [h1, h2]

lemma mem_hevcVideoArgsOne_hvc1 (cfg : HevcCfg) (i : Nat) (v : VideoStream) :
    "hvc1" ∈ hevcVideoArgsOne cfg v i ↔
      (videoCodecIgnored v cfg.ignoreCodec = false ∨ v.tag = some "hev1") := by
  have h1 : ("hvc1" : String) ≠ "0:v:" ++ toString v.ffmpegIndex :=
    Ne.symm (pre_ne _ _ _ (by decide) (by decide))
  have h2 : ("hvc1" : String) ≠ "-c:v:" ++ toString i :=
    Ne.symm (pre_ne _ _ _ (by decide) (by decide))
  unfold hevcVideoArgsOne videoMapArgs
  cases hig : videoCodecIgnored v cfg.ignoreCodec with
  | false => rw [if_neg (by decide)]; simp
  | true =>
    rw [if_pos rfl]
    split_ifs with htag
    · simp [htag]
    · simp [h1, h2, htag]

lemma mem_audioArgsOne_copy (i : Nat) (a : AudioStream) :
    "copy" ∈ prepareAudioArgsOne a i ↔ audioCodecCompatible a = true := by
  have h1 : ("copy" : String) ≠ "0:a:" ++ toString a.ffmpegIndex :=
    Ne.symm (pre_ne _ _ _ (by decide) (by decide))
  have h2 : ("copy" : String) ≠ "-c:a:" ++ toString i :=
    Ne.symm (pre_ne _ _ _ (by decide) (by decide))
  have h3 : ("copy" : String) ≠ "-b:a:" ++ toString a.ffmpegIndex :=
    Ne.symm (pre_ne _ _ _ (by decide) (by decide))
  have h4 : ("copy" : String) ≠ "-q:a:" ++ toString a.ffmpegIndex :=
    Ne.symm (pre_ne _ _ _ (by decide) (by decide))
  unfold prepareAudioArgsOne audioMapArgs
  cases hc : audioCodecCompatible a with
  | false =>
    rw [if_neg (by decide)]
    cases hbr : a.bitRate with
    | none => simp [h1, h2, h4]
    | some br =>
      have h5 : ("copy" : String) ≠ toString br ++ "k" :=
        Ne.symm (suf_ne _ _ _ (by decide) (by decide))
      dsimp only
      split_ifs <;> simp [h1, h2, h3, h4, h5]
  | true => rw [if_pos rfl]; simp

lemma hevcVideoArgsOne_ne_nil (cfg : HevcCfg) (v : VideoStream) (i : Nat) :
    hevcVideoArgsOne cfg v i ≠ [] := by
  unfold hevcVideoArgsOne videoMapArgs
  split_ifs <;> simp

lemma hevc_flat_ne_nil (cfg : HevcCfg) (videos : List VideoStream) (hv : videos ≠ []) :
    (hevcPrepareVideoArgs cfg videos).flatten ≠ [] := by
  cases videos with
  | nil => exact absurd rfl hv
  | cons v rest =>
    unfold hevcPrepareVideoArgs
    show ((List.enumFrom 0 (v :: rest)).map _).flatten ≠ []
    simp only [List.enumFrom, List.map_cons, List.flatten_cons]
    intro h
    exact hevcVideoArgsOne_ne_nil cfg v 0 (List.append_eq_nil.mp h).1

/-- `prepareCmdCore` yields "no command" exactly when the encoder token and
"hvc1" are absent from the flattened video arguments and every audio-stream
argument list contains "copy" (given at least one video argument token). -/
lemma prepareCmdCore_eq_none_iff (encoder : String)
    (videoArgs audioArgs : List (List String)) (inputPath outPath : String)
    (hne : videoArgs.flatten ≠ []) :
    (prepareCmdCore encoder videoArgs audioArgs inputPath outPath = none ↔
      (¬ encoder ∈ videoArgs.flatten ∧ ¬ "hvc1" ∈ videoArgs.flatten ∧
        ∀ s ∈ audioArgs, "copy" ∈ s)) := by
  have hcontf : ∀ (l : List String) (a : String), l.contains a = false ↔ ¬ a ∈ l := by
    simp
  have hiff : (!(videoArgs.flatten.contains encoder)
      && !(videoArgs.flatten.contains "hvc1")
      && audioArgs.all (fun s => s.contains "copy")) = true ↔
      (¬ encoder ∈ videoArgs.flatten ∧ ¬ "hvc1" ∈ videoArgs.flatten ∧
        ∀ s ∈ audioArgs, "copy" ∈ s) := by
    simp only [Bool.and_eq_true, Bool.not_eq_true', hcontf, List.all_eq_true,
      contains_iff_mem, and_assoc]
  unfold prepareCmdCore
  rw [if_neg (by simpa using hne)]
  by_cases hc : (!(videoArgs.flatten.contains encoder)
      && !(videoArgs.flatten.contains "hvc1")
      && audioArgs.all (fun s => s.contains "copy")) = true
  · rw [if_pos hc]
    exact iff_of_true rfl (hiff.mp hc)
  · rw [if_neg hc]
    exact iff_of_false (by simp) (fun hcontra => hc (hiff.mpr hcontra))

/-- `∀` over the enumerated per-stream lists, when the per-stream membership
characterization does not depend on the stream counter. -/
lemma forall_mem_enum_map_iff {α : Type} (f : Nat → α → List String) (x : String)
    (P : α → Prop) (hP : ∀ i v, x ∈ f i v ↔ P v) :
    ∀ (l : List α) (n : Nat),
      ((∀ s ∈ (List.enumFrom n l).map fun q => f q.1 q.2, x ∈ s) ↔ ∀ v ∈ l, P v) := by
  intro l
  induction l with
  | nil => intro n; simp
  | cons v rest ih =>
    intro n
    simp only [List.enumFrom, List.map_cons, List.forall_mem_cons, hP n v, ih (n + 1)]

/-- The HEVC instantiation of `prepare_cmd` returns "no command" exactly when
every video stream is a plain stream copy (ignored codec, no `hev1` tag) and
every audio stream is copied. -/
lemma hevcPrepareCmd_eq_none_iff (cfg : HevcCfg) (m : MediaFileModel)
    (outPath : String) (hm : m.videoInfo ≠ []) :
    hevcPrepareCmd cfg m outPath = none ↔
      ((∀ v ∈ m.videoInfo,
          videoCodecIgnored v cfg.ignoreCodec = true ∧ v.tag ≠ some "hev1") ∧
        ∀ a ∈ m.audioInfo, audioCodecCompatible a = true) := by
  unfold hevcPrepareCmd
  rw [prepareCmdCore_eq_none_iff _ _ _ _ _ (hevc_flat_ne_nil cfg m.videoInfo hm)]
  unfold hevcPrepareVideoArgs prepareAudioArgs
  rw [show (m.videoInfo.enum = List.enumFrom 0 m.videoInfo) from rfl,
    show (m.audioInfo.enum = List.enumFrom 0 m.audioInfo) from rfl]
  rw [mem_flatten_enum_iff (fun i v => hevcVideoArgsOne cfg v i) "libx265"
      (fun v => videoCodecIgnored v cfg.ignoreCodec = false)
      (fun i v => mem_hevcVideoArgsOne_libx265 cfg i v) m.videoInfo 0,
    mem_flatten_enum_iff (fun i v => hevcVideoArgsOne cfg v i) "hvc1"
      (fun v => videoCodecIgnored v cfg.ignoreCodec = false ∨ v.tag = some "hev1")
      (fun i v => mem_hevcVideoArgsOne_hvc1 cfg i v) m.videoInfo 0,
    forall_mem_enum_map_iff (fun i a => prepareAudioArgsOne a i) "copy"
      (fun a => audioCodecCompatible a = true)
      (fun i a => mem_audioArgsOne_copy i a) m.audioInfo 0]
  constructor
  · intro ⟨h1, h2, h3⟩
    push_neg at h1 h2
    refine ⟨fun v hv => ⟨?_, ?_⟩, h3⟩
    · cases hig : videoCodecIgnored v cfg.ignoreCodec with
      | false => exact absurd hig (h1 v hv)
      | true => rfl
    · intro htag
      exact (h2 v hv).2 htag
  · intro ⟨h1, h2⟩
    refine ⟨?_, ?_, h2⟩
    · rintro ⟨v, hv, hfalse⟩
      exact absurd (h1 v hv).1 (by simp [hfalse])
    · rintro ⟨v, hv, hfalse | htag⟩
      · exact absurd (h1 v hv).1 (by simp [hfalse])
      · exact (h1 v hv).2 htag

lemma copyArgs_contains_copy (v : VideoStream) (i : Nat) :
    (videoMapArgs v i ++ ["copy"]).contains "copy" = true := by
  simp [videoMapArgs]

lemma svtVideoArgsFullOne_ignored (cfg : SvtCfg) (v : VideoStream) (i : Nat)
    (h : videoCodecIgnored v cfg.ignoreCodec = true) :
    svtVideoArgsFullOne cfg v i = .ok (videoMapArgs v i ++ ["copy"]) := by
  unfold svtVideoArgsFullOne svtVideoArgsOne presetAddition svtAddition
  rw [if_pos h]
  simp [copyArgs_contains_copy]

lemma svtVideoArgsFullOne_not_ignored (cfg : SvtCfg) (v : VideoStream) (i : Nat)
    (h : videoCodecIgnored v cfg.ignoreCodec = false) :
    svtVideoArgsFullOne cfg v i =
      .error "AttributeError: VideoStream object has no attribute is_metadata" := by
  unfold svtVideoArgsFullOne svtVideoArgsOne
  rw [if_neg (by simp [h])]

lemma svtVideoArgsList_all_ignored (cfg : SvtCfg) :
    ∀ (l : List VideoStream) (n : Nat),
      (∀ v ∈ l, videoCodecIgnored v cfg.ignoreCodec = true) →
      svtVideoArgsList cfg (List.enumFrom n l) =
        .ok ((List.enumFrom n l).map fun p => videoMapArgs p.2 p.1 ++ ["copy"]) := by
  intro l
  induction l with
  | nil => intro n _; rfl
  | cons v rest ih =>
    intro n h
    show svtVideoArgsList cfg ((n, v) :: List.enumFrom (n + 1) rest) = _
    unfold svtVideoArgsList
    rw [svtVideoArgsFullOne_ignored cfg v n (h v (List.mem_cons_self v rest)),
      ih (n + 1) (fun w hw => h w (List.mem_cons_of_mem v hw))]
    rfl

lemma svtVideoArgsList_err (cfg : SvtCfg) :
    ∀ (l : List VideoStream) (n : Nat),
      (∃ v ∈ l, videoCodecIgnored v cfg.ignoreCodec = false) →
      svtVideoArgsList cfg (List.enumFrom n l) =
        .error "AttributeError: VideoStream object has no attribute is_metadata" := by
  intro l
  induction l with
  | nil => intro n h; simp at h
  | cons v rest ih =>
    intro n h
    show svtVideoArgsList cfg ((n, v) :: List.enumFrom (n + 1) rest) = _
    unfold svtVideoArgsList
    cases hig : videoCodecIgnored v cfg.ignoreCodec with
    | false => rw [svtVideoArgsFullOne_not_ignored cfg v n hig]
    | true =>
      rcases h with ⟨w, hw, hwf⟩
      rcases List.mem_cons.mp hw with rfl | hw2
      · exact absurd hig (by simp [hwf])
      · rw [svtVideoArgsFullOne_ignored cfg v n hig, ih (n + 1) ⟨w, hw2, hwf⟩]

lemma mem_copyArgs_iff_false (x : String) (hx1 : x ≠ "-map") (hx2 : x ≠ "copy")
    (hx3 : ∀ s, x ≠ "0:v:" ++ s) (hx4 : ∀ s, x ≠ "-c:v:" ++ s)
    (i : Nat) (v : VideoStream) :
    x ∈ videoMapArgs v i ++ ["copy"] ↔ False := by
  simp [videoMapArgs, hx1, hx2, hx3 (toString v.ffmpegIndex), hx4 (toString i)]

lemma svt_copy_flat_ne_nil (videos : List VideoStream) (hv : videos ≠ []) :
    (((List.enumFrom 0 videos).map fun p =>
      videoMapArgs p.2 p.1 ++ ["copy"]) : List (List String)).flatten ≠ [] := by
  cases videos with
  | nil => exact absurd rfl hv
  | cons v rest =>
    simp only [List.enumFrom, List.map_cons, List.flatten_cons]
    intro h
    exact absurd (List.append_eq_nil.mp (List.append_eq_nil.mp h).1).2 (by simp)

/-- The SVT-AV1 instantiation of `prepare_cmd` returns "no command" exactly
when every video stream's codec is ignored and every audio stream is copied
(a non-ignored stream instead raises AttributeError in
`CRFEncoder.prepare_video_args`). -/
lemma svtPrepareCmd_ok_none_iff (cfg : SvtCfg) (m : MediaFileModel)
    (outPath : String) (hm : m.videoInfo ≠ []) :
    svtPrepareCmd cfg m outPath = .ok none ↔
      ((∀ v ∈ m.videoInfo, videoCodecIgnored v cfg.ignoreCodec = true) ∧
        ∀ a ∈ m.audioInfo, audioCodecCompatible a = true) := by
  by_cases hall : ∀ v ∈ m.videoInfo, videoCodecIgnored v cfg.ignoreCodec = true
  · unfold svtPrepareCmd svtPrepareVideoArgs
    rw [show (m.videoInfo.enum = List.enumFrom 0 m.videoInfo) from rfl,
      svtVideoArgsList_all_ignored cfg m.videoInfo 0 hall]
    show (Except.ok (prepareCmdCore _ _ _ _ _) :
        Except String (Option (List String))) = .ok none ↔ _
    rw [Except.ok.injEq]
    rw [prepareCmdCore_eq_none_iff _ _ _ _ _ (svt_copy_flat_ne_nil m.videoInfo hm)]
    unfold prepareAudioArgs
    rw [show (m.audioInfo.enum = List.enumFrom 0 m.audioInfo) from rfl]
    rw [mem_flatten_enum_iff (fun i v => videoMapArgs v i ++ ["copy"]) "libsvtav1"
        (fun _ => False)
        (fun i v => mem_copyArgs_iff_false "libsvtav1" (by decide) (by decide)
          (fun s => Ne.symm (pre_ne _ _ _ (by decide) (by decide)))
          (fun s => Ne.symm (pre_ne _ _ _ (by decide) (by decide))) i v) m.videoInfo 0,
      mem_flatten_enum_iff (fun i v => videoMapArgs v i ++ ["copy"]) "hvc1"
        (fun _ => False)
        (fun i v => mem_copyArgs_iff_false "hvc1" (by decide) (by decide)
          (fun s => Ne.symm (pre_ne _ _ _ (by decide) (by decide)))
          (fun s => Ne.symm (pre_ne _ _ _ (by decide) (by decide))) i v) m.videoInfo 0,
      forall_mem_enum_map_iff (fun i a => prepareAudioArgsOne a i) "copy"
        (fun a => audioCodecCompatible a = true)
        (fun i a => mem_audioArgsOne_copy i a) m.audioInfo 0]
    simp [hall]
    exact fun _ => hall
  · push_neg at hall
    rcases hall with ⟨v, hv, hvf⟩
    have hvf2 : videoCodecIgnored v cfg.ignoreCodec = false := by
      simpa using hvf
    unfold svtPrepareCmd svtPrepareVideoArgs
    rw [show (m.videoInfo.enum = List.enumFrom 0 m.videoInfo) from rfl,
      svtVideoArgsList_err cfg m.videoInfo 0 ⟨v, hv, hvf2⟩]
    simp
    intro hcontra
    exact absurd (hcontra v hv) (by simp [hvf2])

/-! ### `encode_wrapper` reaches SKIPPED exactly for "no command" -/

lemma verifyStep_cases (cfg : JobCfg) (oc : RunOracle) :
    verifyStep cfg oc = .failed ∨ verifyStep cfg oc = .lowquality ∨
      verifyStep cfg oc = .success := by
  unfold verifyStep
  rcases hs : oc.vmafScore with _ | v
  all_goals simp only [hs]
  all_goals split_ifs <;> simp

lemma replaceOriginal_snd_cases (fs : FS) (oc : RunOracle) :
    (replaceOriginal fs oc).2 = .success ∨ (replaceOriginal fs oc).2 = .failed := by
  unfold replaceOriginal
  split_ifs <;> simp

set_option maxHeartbeats 1000000 in
lemma cleanUp_success_fst_ne_skipped (cfg : JobCfg) (oc : RunOracle) (fs : FS) :
    (cleanUp cfg oc fs .success).1 ≠ .skipped := by
  unfold cleanUp
  rw [if_pos rfl]
  dsimp only
  rcases verifyStep_cases cfg oc with hv | hv | hv <;>
    rcases replaceOriginal_snd_cases fs oc with hr | hr <;>
    split_ifs <;> simp_all

lemma cleanUp_failed_fst (cfg : JobCfg) (oc : RunOracle) (fs : FS) :
    (cleanUp cfg oc fs .failed).1 = .failed := rfl

lemma cleanUp_skipped_eq (cfg : JobCfg) (oc : RunOracle) (fs : FS) :
    cleanUp cfg oc fs .skipped = (.skipped, fs) := rfl

/-- The wrapper's terminal status is SKIPPED exactly when command preparation
returned "no command", and then the transcoder subprocess is never started. -/
lemma encodeWrapper_skipped_iff (cfg : JobCfg)
    (cmdE : Except String (Option (List String))) (oc : RunOracle) (fs : FS) :
    ((encodeWrapper cfg cmdE oc fs).status = .skipped ↔ cmdE = .ok none) ∧
      (cmdE = .ok none → (encodeWrapper cfg cmdE oc fs).invoked = false) := by
  rcases cmdE with e | cmd
  · refine ⟨iff_of_false ?_ (by simp), by simp⟩
    show (cleanUp cfg oc fs .failed).1 ≠ .skipped
    rw [cleanUp_failed_fst]
    simp
  · rcases cmd with _ | c
    · exact ⟨iff_of_true (by rw [show (encodeWrapper cfg (.ok none) oc fs).status =
        (cleanUp cfg oc fs .skipped).1 from rfl, cleanUp_skipped_eq]) rfl,
        fun _ => rfl⟩
    · refine ⟨iff_of_false ?_ (by simp), by simp⟩
      show (encodeWrapper cfg (.ok (some c)) oc fs).status ≠ .skipped
      unfold encodeWrapper
      dsimp only
      split_ifs
      · exact cleanUp_success_fst_ne_skipped cfg oc _
      · rw [cleanUp_failed_fst]; simp
      · rw [cleanUp_failed_fst]; simp

/-- **C1.**  For every media file (probed video list non-empty, the MediaFile
invariant) and encoder configuration, `prepare_cmd` returns "no command"
(`none`) exactly when every video stream resolves to a plain "copy" directive
and every audio stream resolves to "copy" — for the HEVC encoder a plain copy
means the codec is in the ignore set with no hev1→hvc1 tag rewrite pending,
for the SVT-AV1 encoder it means the codec is in the ignore set — and the
job's terminal status is SKIPPED exactly when `prepare_cmd` returned "no
command", in which case the transcoder subprocess is never invoked.
(`CustomEncoder` only appends denoise/progress arguments to streams already
being encoded and to non-None commands, so it does not change the
"no command" condition.) -/
theorem C1_prepare_cmd_skip (hc : HevcCfg) (sc : SvtCfg) (m : MediaFileModel)
    (outPath : String) (hm : m.videoInfo ≠ []) (cfg : JobCfg) (oc : RunOracle)
    (fs : FS) :
    (hevcPrepareCmd hc m outPath = none ↔
      ((∀ v ∈ m.videoInfo,
          videoCodecIgnored v hc.ignoreCodec = true ∧ v.tag ≠ some "hev1") ∧
        ∀ a ∈ m.audioInfo, audioCodecCompatible a = true)) ∧
    (svtPrepareCmd sc m outPath = .ok none ↔
      ((∀ v ∈ m.videoInfo, videoCodecIgnored v sc.ignoreCodec = true) ∧
        ∀ a ∈ m.audioInfo, audioCodecCompatible a = true)) ∧
    (∀ cmdE : Except String (Option (List String)),
      ((encodeWrapper cfg cmdE oc fs).status = .skipped ↔ cmdE = .ok none) ∧
        (cmdE = .ok none → (encodeWrapper cfg cmdE oc fs).invoked = false)) := by
  exact ⟨hevcPrepareCmd_eq_none_iff hc m outPath hm,
    svtPrepareCmd_ok_none_iff sc m outPath hm,
    fun cmdE => encodeWrapper_skipped_iff cfg cmdE oc fs⟩

/-- Witness for C1: an all-copy HEVC file (hvc1-tagged HEVC video, AAC audio)
gets "no command" and terminal SKIPPED with no transcoder start; an hev1-tagged
file gets a command. -/
theorem C1_prepare_cmd_skip_witness :
    hevcPrepareCmd ⟨none, none, efficientCodecs⟩
        ⟨"/x/in.mp4", [exStreamHevc], [exAudioAac]⟩ "/x/out.mp4" = none ∧
    (encodeWrapper ⟨false, 90, true, true⟩
        (.ok (hevcPrepareCmd ⟨none, none, efficientCodecs⟩
          ⟨"/x/in.mp4", [exStreamHevc], [exAudioAac]⟩ "/x/out.mp4"))
        ⟨true, true, 50, true, some 95, true, true, true⟩
        ⟨true, 100, false, 0, false⟩).status = .skipped ∧
    (encodeWrapper ⟨false, 90, true, true⟩
        (.ok (hevcPrepareCmd ⟨none, none, efficientCodecs⟩
          ⟨"/x/in.mp4", [exStreamHevc], [exAudioAac]⟩ "/x/out.mp4"))
        ⟨true, true, 50, true, some 95, true, true, true⟩
        ⟨true, 100, false, 0, false⟩).invoked = false ∧
    hevcPrepareCmd ⟨none, none, efficientCodecs⟩
        ⟨"/x/in.mp4", [exStreamHev1], [exAudioAac]⟩ "/x/out.mp4" ≠ none := by
  have h := C1_prepare_cmd_skip ⟨none, none, efficientCodecs⟩
    ⟨none, none, 0, 1, ["av1"]⟩ ⟨"/x/in.mp4", [exStreamHevc], [exAudioAac]⟩
    "/x/out.mp4" (by simp) ⟨false, 90, true, true⟩
    ⟨true, true, 50, true, some 95, true, true, true⟩ ⟨true, 100, false, 0, false⟩
  have hnone : hevcPrepareCmd ⟨none, none, efficientCodecs⟩
      ⟨"/x/in.mp4", [exStreamHevc], [exAudioAac]⟩ "/x/out.mp4" = none := by
    refine h.1.mpr ⟨?_, ?_⟩
    · intro v hv
      simp only [List.mem_singleton] at hv
      subst hv
      exact ⟨by decide, by decide⟩
    · intro a ha
      simp only [List.mem_singleton] at ha
      subst ha
      decide
  have h2 := C1_prepare_cmd_skip ⟨none, none, efficientCodecs⟩
    ⟨none, none, 0, 1, ["av1"]⟩ ⟨"/x/in.mp4", [exStreamHev1], [exAudioAac]⟩
    "/x/out.mp4" (by simp) ⟨false, 90, true, true⟩
    ⟨true, true, 50, true, some 95, true, true, true⟩ ⟨true, 100, false, 0, false⟩
  refine ⟨hnone, ?_, ?_, ?_⟩
  · exact ((h.2.2 _).1).mpr (by rw [hnone])
  · exact (h.2.2 _).2 (by rw [hnone])
  · intro hcontra
    have := h2.1.mp hcontra
    have hbad := (this.1 exStreamHev1 (by simp)).2
    exact hbad (by decide)

/-! ## C2 / C4 / C5: outcomes of `clean_up` and their side effects -/

lemma verifyStep_lowquality (cfg : JobCfg) (oc : RunOracle) (v : Rat)
    (hv : cfg.verify = true) (hp : oc.probeOk = true) (hs : oc.vmafScore = some v)
    (hlt : v < cfg.deleteThreshold) : verifyStep cfg oc = .lowquality := by
  simp [verifyStep, hv, hp, hs, hlt]

lemma verifyStep_failed (cfg : JobCfg) (oc : RunOracle) (hv : cfg.verify = true)
    (hbad : oc.probeOk = false ∨ oc.vmafScore = none) :
    verifyStep cfg oc = .failed := by
  rcases hbad with h | h
  · simp [verifyStep, hv, h]
  · cases hp : oc.probeOk <;> simp [verifyStep, hv, hp, h]

lemma cleanUp_success_lowquality (cfg : JobCfg) (oc : RunOracle) (fs : FS)
    (hv : cfg.verify = true) (hlq : verifyStep cfg oc = .lowquality) :
    cleanUp cfg oc fs .success = (.lowquality, fs) := by
  simp [cleanUp, hv, hlq]

lemma cleanUp_success_verify_failed (cfg : JobCfg) (oc : RunOracle) (fs : FS)
    (hv : cfg.verify = true) (hvf : verifyStep cfg oc = .failed) :
    cleanUp cfg oc fs .success = (.failed, fs) := by
  simp [cleanUp, hv, hvf]

lemma status1_success (cfg : JobCfg) (oc : RunOracle)
    (hver : cfg.verify = false ∨ verifyStep cfg oc = .success) :
    (if cfg.verify = true then verifyStep cfg oc else .success) = .success := by
  rcases hver with h | h
  · rw [h]; simp
  · cases hv : cfg.verify <;> simp [h]

lemma cleanUp_success_largesize (cfg : JobCfg) (oc : RunOracle) (fs : FS)
    (hcs : cfg.checkSize = true)
    (hver : cfg.verify = false ∨ verifyStep cfg oc = .success)
    (horig : fs.origPresent = true) (htmp : fs.tmpPresent = true)
    (hsz : fs.tmpSize ≥ fs.origSize) :
    cleanUp cfg oc fs .success = (.largesize, fs) := by
  simp [cleanUp, status1_success cfg oc hver, hcs, horig, htmp, hsz]

lemma cleanUp_success_replace (cfg : JobCfg) (oc : RunOracle) (fs : FS)
    (hver : cfg.verify = false ∨ verifyStep cfg oc = .success)
    (hdel : cfg.deleteOriginal = true)
    (horig : fs.origPresent = true) (htmp : fs.tmpPresent = true)
    (hsc : cfg.checkSize = false ∨ fs.tmpSize < fs.origSize) :
    cleanUp cfg oc fs .success = ((replaceOriginal fs oc).2, (replaceOriginal fs oc).1) := by
  have h1 := status1_success cfg oc hver
  rcases hsc with h | h
  · simp [cleanUp, h1, h, hdel]
  · have h2 : ¬ fs.tmpSize ≥ fs.origSize := by omega
    cases hcs : cfg.checkSize <;> simp [cleanUp, h1, hcs, hdel, h2, horig, htmp]

lemma replaceOriginal_failed_tmp_kept (fs : FS) (oc : RunOracle)
    (htmp : fs.tmpPresent = true)
    (hrf : oc.unlinkOrigOk = false ∨ oc.renameOk = false) :
    (replaceOriginal fs oc).2 = .failed ∧
      ((replaceOriginal fs oc).1).tmpPresent = true := by
  unfold replaceOriginal
  rcases hrf with h | h <;> split_ifs <;> simp_all

/-- The wrapper on a prepared command with a successful ffmpeg exit, temp file
created and original present, reduces to `clean_up` on SUCCESS. -/
lemma encodeWrapper_success_run (cfg : JobCfg) (cmd : List String) (oc : RunOracle)
    (fs : FS) (hexit : oc.exitZero = true) (htmp : oc.tmpCreated = true)
    (horig : fs.origPresent = true) (hsz0 : fs.origSize ≠ 0) :
    encodeWrapper cfg (.ok (some cmd)) oc fs =
      ⟨(cleanUp cfg oc (fsAfterRun fs oc) .success).1,
        (cleanUp cfg oc (fsAfterRun fs oc) .success).2, true⟩ := by
  unfold encodeWrapper
  dsimp only
  rw [if_pos hexit, if_pos (by exact ⟨htmp, horig, hsz0⟩)]

/-- **C2 (code bug).**  The encoder side of the claim holds at the spec's own
scenario (verify on, threshold 90, computed score 85): the job terminates
LOWQUALITY, the original file is still present with its size unchanged, and
the encoder's cleanup retains the temporary output.  But the batch scheduler
never handles the outcome: every iteration of `BatchEncoder.encode_videos`
raises AttributeError formatting `media_file.file_name` — an attribute
`MediaFile` does not define (it defines `file_path`, which the same function
uses everywhere else) — in its opening log at line 406, before the encoder is
even constructed; and the LOWQUALITY branch performs the same read (line 450)
before its `encoder._delete_encoded()` call (line 452), so even that branch,
taken in isolation, errors out without deleting.  The run aborts instead of
handling the outcome the claim describes. -/
theorem C2_lowquality_code_bug :
    (encodeWrapper ⟨true, 90, true, true⟩ (.ok (some ["-i", "in"]))
      ⟨true, true, 50, true, some 85, true, true, true⟩
      ⟨true, 100, false, 0, false⟩).status = .lowquality ∧
    (encodeWrapper ⟨true, 90, true, true⟩ (.ok (some ["-i", "in"]))
      ⟨true, true, 50, true, some 85, true, true, true⟩
      ⟨true, 100, false, 0, false⟩).fs.origPresent = true ∧
    (encodeWrapper ⟨true, 90, true, true⟩ (.ok (some ["-i", "in"]))
      ⟨true, true, 50, true, some 85, true, true, true⟩
      ⟨true, 100, false, 0, false⟩).fs.origSize = 100 ∧
    (encodeWrapper ⟨true, 90, true, true⟩ (.ok (some ["-i", "in"]))
      ⟨true, true, 50, true, some 85, true, true, true⟩
      ⟨true, 100, false, 0, false⟩).fs.tmpPresent = true ∧
    (∀ (fs : FS) (unl : Bool),
      schedulerHandle .lowquality fs unl =
        .error "AttributeError: MediaFile object has no attribute file_name") ∧
    (∀ (st : EncodingStatus) (fs : FS) (unl : Bool),
      encodeVideosStep st fs unl =
        .error "AttributeError: MediaFile object has no attribute file_name") :=
  ⟨rfl, rfl, rfl, rfl, fun _ _ => rfl, fun _ _ _ => rfl⟩

/-- **C4 (code bug).**  The encoder side of the claim holds: with check-size
enabled (verify off here), a job reaching the size check whose 150-byte
encoded output is at least as large as the 100-byte original terminates
LARGESIZE with the original neither deleted nor renamed (present, same size,
final path untouched) and the temporary output still on disk; and the
LARGESIZE branch of `BatchEncoder.encode_videos` (lines 454-467) is indeed
written to discard that temporary output while keeping the original.  But the
branch never executes: every iteration of `encode_videos` raises
AttributeError formatting `media_file.file_name` — `MediaFile` defines
`file_path`, not `file_name` — in the loop's opening log (line 406), before
the encoder is even constructed, so no outcome is ever handled by the batch
scheduler and the claimed discard is unreachable. -/
theorem C4_largesize_code_bug :
    (encodeWrapper ⟨false, 90, true, true⟩ (.ok (some ["-i", "in"]))
      ⟨true, true, 150, true, none, true, true, true⟩
      ⟨true, 100, false, 0, false⟩).status = .largesize ∧
    (encodeWrapper ⟨false, 90, true, true⟩ (.ok (some ["-i", "in"]))
      ⟨true, true, 150, true, none, true, true, true⟩
      ⟨true, 100, false, 0, false⟩).fs.origPresent = true ∧
    (encodeWrapper ⟨false, 90, true, true⟩ (.ok (some ["-i", "in"]))
      ⟨true, true, 150, true, none, true, true, true⟩
      ⟨true, 100, false, 0, false⟩).fs.origSize = 100 ∧
    (encodeWrapper ⟨false, 90, true, true⟩ (.ok (some ["-i", "in"]))
      ⟨true, true, 150, true, none, true, true, true⟩
      ⟨true, 100, false, 0, false⟩).fs.finalPresent = false ∧
    (encodeWrapper ⟨false, 90, true, true⟩ (.ok (some ["-i", "in"]))
      ⟨true, true, 150, true, none, true, true, true⟩
      ⟨true, 100, false, 0, false⟩).fs.tmpPresent = true ∧
    (schedulerHandle .largesize
      (encodeWrapper ⟨false, 90, true, true⟩ (.ok (some ["-i", "in"]))
        ⟨true, true, 150, true, none, true, true, true⟩
        ⟨true, 100, false, 0, false⟩).fs true).toOption.map
      (fun e => (e.fs.tmpPresent, e.fs.origPresent, e.fs.origSize)) =
      some (false, true, 100) ∧
    (∀ (st : EncodingStatus) (fs2 : FS) (unl : Bool),
      encodeVideosStep st fs2 unl =
        .error "AttributeError: MediaFile object has no attribute file_name") :=
  ⟨rfl, rfl, rfl, rfl, rfl, rfl, fun _ _ _ => rfl⟩

/-- **C5.**  A FAILED outcome caused by the transcoder run itself (non-zero
exit / missing binary, both caught around `subprocess.run`) deletes the
temporary output during cleanup if it exists; a FAILED outcome from an
unprobeable or unscorable verification, or from the delete/rename replacement
step, leaves the temporary file in place. -/
theorem C5_failed_cleanup (cfg : JobCfg) (cmd : List String) (oc : RunOracle)
    (fs : FS) :
    (oc.exitZero = false → oc.unlinkTmpOk = true →
      (encodeWrapper cfg (.ok (some cmd)) oc fs).status = .failed ∧
      (encodeWrapper cfg (.ok (some cmd)) oc fs).fs.tmpPresent = false) ∧
    (cfg.verify = true → oc.exitZero = true → oc.tmpCreated = true →
      fs.origPresent = true → fs.origSize ≠ 0 →
      (oc.probeOk = false ∨ oc.vmafScore = none) →
      (encodeWrapper cfg (.ok (some cmd)) oc fs).status = .failed ∧
      (encodeWrapper cfg (.ok (some cmd)) oc fs).fs.tmpPresent = true) ∧
    ((cfg.verify = false ∨ verifyStep cfg oc = .success) →
      cfg.deleteOriginal = true →
      (cfg.checkSize = false ∨ oc.tmpSizeAfter < fs.origSize) →
      oc.exitZero = true → oc.tmpCreated = true → fs.origPresent = true →
      fs.origSize ≠ 0 → (oc.unlinkOrigOk = false ∨ oc.renameOk = false) →
      (encodeWrapper cfg (.ok (some cmd)) oc fs).status = .failed ∧
      (encodeWrapper cfg (.ok (some cmd)) oc fs).fs.tmpPresent = true) := by
  refine ⟨?_, ?_, ?_⟩
  · intro hexit hunl
    have hw : encodeWrapper cfg (.ok (some cmd)) oc fs =
        ⟨(cleanUp cfg oc (fsAfterRun fs oc) .failed).1,
          (cleanUp cfg oc (fsAfterRun fs oc) .failed).2, true⟩ := by
      unfold encodeWrapper
      dsimp only
      rw [if_neg (by simp [hexit])]
    rw [hw, cleanUp_failed_fst]
    refine ⟨rfl, ?_⟩
    show ((deleteEncoded _ oc.unlinkTmpOk).1).tmpPresent = false
    rw [hunl]
    unfold deleteEncoded
    split_ifs <;> simp_all
  · intro hv hexit htmp horig hsz0 hbad
    have hw := encodeWrapper_success_run cfg cmd oc fs hexit htmp horig hsz0
    rw [cleanUp_success_verify_failed cfg oc (fsAfterRun fs oc) hv
      (verifyStep_failed cfg oc hv hbad)] at hw
    rw [hw]
    exact ⟨rfl, htmp⟩
  · intro hver hdel hsc hexit htmp horig hsz0 hrf
    have hw := encodeWrapper_success_run cfg cmd oc fs hexit htmp horig hsz0
    have hsc2 : cfg.checkSize = false ∨
        (fsAfterRun fs oc).tmpSize < (fsAfterRun fs oc).origSize := hsc
    rw [cleanUp_success_replace cfg oc (fsAfterRun fs oc) hver hdel horig htmp hsc2] at hw
    have hrk := replaceOriginal_failed_tmp_kept (fsAfterRun fs oc) oc htmp hrf
    rw [hw]
    exact ⟨hrk.1, hrk.2⟩

/-- Witness for C5: each of the three FAILED avenues at concrete inputs. -/
theorem C5_failed_cleanup_witness :
    ((encodeWrapper ⟨false, 90, true, true⟩ (.ok (some ["c"]))
      ⟨false, true, 50, true, none, true, true, true⟩
      ⟨true, 100, false, 0, false⟩).status = .failed ∧
     (encodeWrapper ⟨false, 90, true, true⟩ (.ok (some ["c"]))
      ⟨false, true, 50, true, none, true, true, true⟩
      ⟨true, 100, false, 0, false⟩).fs.tmpPresent = false) ∧
    ((encodeWrapper ⟨true, 90, true, true⟩ (.ok (some ["c"]))
      ⟨true, true, 50, false, none, true, true, true⟩
      ⟨true, 100, false, 0, false⟩).status = .failed ∧
     (encodeWrapper ⟨true, 90, true, true⟩ (.ok (some ["c"]))
      ⟨true, true, 50, false, none, true, true, true⟩
      ⟨true, 100, false, 0, false⟩).fs.tmpPresent = true) ∧
    ((encodeWrapper ⟨false, 90, true, true⟩ (.ok (some ["c"]))
      ⟨true, true, 50, true, none, true, true, false⟩
      ⟨true, 100, false, 0, false⟩).status = .failed ∧
     (encodeWrapper ⟨false, 90, true, true⟩ (.ok (some ["c"]))
      ⟨true, true, 50, true, none, true, true, false⟩
      ⟨true, 100, false, 0, false⟩).fs.tmpPresent = true) := by
  refine ⟨?_, ?_, ?_⟩
  · exact (C5_failed_cleanup ⟨false, 90, true, true⟩ ["c"]
      ⟨false, true, 50, true, none, true, true, true⟩
      ⟨true, 100, false, 0, false⟩).1 rfl rfl
  · exact (C5_failed_cleanup ⟨true, 90, true, true⟩ ["c"]
      ⟨true, true, 50, false, none, true, true, true⟩
      ⟨true, 100, false, 0, false⟩).2.1 rfl rfl rfl rfl (by decide) (Or.inl rfl)
  · exact (C5_failed_cleanup ⟨false, 90, true, true⟩ ["c"]
      ⟨true, true, 50, true, none, true, true, false⟩
      ⟨true, 100, false, 0, false⟩).2.2 (Or.inl rfl) rfl
      (Or.inr (by decide)) rfl rfl rfl (by decide) (Or.inr rfl)

/-! ## C3: resume validation and fresh re-scan -/

lemma loadState_fst_iff (saved : Option SavedState) (directory minSize : String)
    (minRes : Option String) :
    (loadState saved directory minSize minRes).1 = true ↔
      ∃ st, saved = some st ∧ st.directory = directory ∧ st.minSize = minSize ∧
        st.minResolution = minRes ∧ st.videoQueue ≠ [] := by
  rcases saved with _ | st
  · simp [loadState]
  · unfold loadState
    dsimp only
    split_ifs with h1 h2 h3
    · -- directory matches, queue empty
      have hq : st.videoQueue = [] := by
        cases hqq : st.videoQueue with
        | nil => rfl
        | cons a l => rw [hqq] at h2; simp at h2
      refine iff_of_false not_false ?_
      rintro ⟨st2, hst2, _, _, _, hqne⟩
      obtain rfl : st = st2 := by injection hst2
      exact hqne hq
    · -- directory matches, queue non-empty, parameter mismatch
      refine iff_of_false not_false ?_
      rintro ⟨st2, hst2, hdir, hms, hmr, hqne⟩
      obtain rfl : st = st2 := by injection hst2
      exact Or.elim h3 (fun h => h hms) (fun h => h hmr)
    · -- resumed
      push_neg at h3
      refine iff_of_true rfl ⟨st, rfl, h1, h3.1, h3.2, ?_⟩
      intro hq
      rw [hq] at h2
      simp at h2
    · -- directory mismatch
      refine iff_of_false not_false ?_
      rintro ⟨st2, hst2, hdir, _⟩
      obtain rfl : st = st2 := by injection hst2
      exact h1 hdir

lemma batchInit_reset (saved : Option SavedState) (directory minSize : String)
    (minSizeBytes : Nat) (minRes : Option String) (cands : List Candidate)
    (hfail : (loadState saved directory minSize minRes).1 = false) :
    batchInit saved false directory minSize minSizeBytes minRes cands =
      prepareVideoQueue emptyFields minSizeBytes minRes cands := by
  unfold batchInit
  dsimp only
  rw [hfail]
  rfl

lemma scanStep_excludes (sE fE : List String) (msb : Nat) (mr : Option String)
    (acc : ScanAcc) (c : Candidate) (p : String)
    (hp : p ∈ sE ∨ p ∈ fE)
    (hnot : ¬ p ∈ acc.tempQueue.map (fun q => q.path)) :
    ¬ p ∈ ((scanStep sE fE msb mr acc c).tempQueue.map (fun q => q.path)) := by
  unfold scanStep
  by_cases hskip : (sE.contains c.path || fE.contains c.path) = true
  · rw [if_pos hskip]; exact hnot
  · rw [if_neg hskip]
    have hne : c.path ≠ p := by
      intro he
      apply hskip
      rcases hp with h | h
      · subst he
        simp [contains_iff_mem, h]
      · subst he
        simp [contains_iff_mem, h]
    split_ifs with hsz
    · exact hnot
    · rcases c.probe with _ | streams
      · exact hnot
      · rcases mr with _ | r
        · dsimp only
          simp only [List.map_append, List.map_cons, List.map_nil]
          intro hmem
          rcases List.mem_append.mp hmem with h | h
          · exact hnot h
          · simp at h
            exact hne h.symm
        · dsimp only
          split_ifs with hbelow
          · exact hnot
          · simp only [List.map_append, List.map_cons, List.map_nil]
            intro hmem
            rcases List.mem_append.mp hmem with h | h
            · exact hnot h
            · simp at h
              exact hne h.symm

lemma foldl_scan_excludes (sE fE : List String) (msb : Nat) (mr : Option String)
    (p : String) (hp : p ∈ sE ∨ p ∈ fE) :
    ∀ (cands : List Candidate) (acc : ScanAcc),
      ¬ p ∈ acc.tempQueue.map (fun q => q.path) →
      ¬ p ∈ ((cands.foldl (scanStep sE fE msb mr) acc).tempQueue.map
        (fun q => q.path)) := by
  intro cands
  induction cands with
  | nil => intro acc h; exact h
  | cons c rest ih =>
    intro acc h
    exact ih (scanStep sE fE msb mr acc c)
      (scanStep_excludes sE fE msb mr acc c p hp h)

/-- **C3.**  A persisted state resumes only when the saved directory, min_size
and min_resolution equal the current run's and the saved queue is non-empty;
a parameter mismatch or an empty persisted queue resets the result sets and
counters (`reset_state` clears everything) and re-scans from scratch; and the
scan excludes every path recorded as succeeded or failed. -/
theorem C3_resume_validation (saved : Option SavedState)
    (directory minSize : String) (minRes : Option String) (minSizeBytes : Nat)
    (cands : List Candidate) :
    ((loadState saved directory minSize minRes).1 = true ↔
      ∃ st, saved = some st ∧ st.directory = directory ∧ st.minSize = minSize ∧
        st.minResolution = minRes ∧ st.videoQueue ≠ []) ∧
    (∀ st, saved = some st →
      (st.minSize ≠ minSize ∨ st.minResolution ≠ minRes ∨ st.videoQueue = []) →
      batchInit saved false directory minSize minSizeBytes minRes cands =
        prepareVideoQueue emptyFields minSizeBytes minRes cands) ∧
    (∀ (fields : BatchFields) (p : String),
      (p ∈ fields.successEncodings ∨ p ∈ fields.failedEncodings) →
      ¬ p ∈ ((prepareVideoQueue fields minSizeBytes minRes cands).videoQueue.map
        (fun q => q.path))) := by
  refine ⟨loadState_fst_iff saved directory minSize minRes, ?_, ?_⟩
  · intro st hst hbad
    apply batchInit_reset
    cases hload : (loadState saved directory minSize minRes).1 with
    | false => rfl
    | true =>
      rcases (loadState_fst_iff saved directory minSize minRes).mp hload with
        ⟨st2, hst2, _, hms, hmr, hq⟩
      rw [hst] at hst2
      obtain rfl : st = st2 := by injection hst2
      rcases hbad with h | h | h
      · exact absurd hms h
      · exact absurd hmr h
      · exact absurd h hq
  · intro fields p hp
    unfold prepareVideoQueue
    exact foldl_scan_excludes fields.successEncodings fields.failedEncodings
      minSizeBytes minRes p hp cands ⟨[], fields.skippedVideos⟩ (by simp)

/-- Witness for C3: a matching saved state resumes; changing min_size forces a
reset + fresh scan; a fresh scan never re-enqueues a recorded path. -/
theorem C3_resume_validation_witness :
    (loadState (some ⟨"/d", [], [], [], [⟨-5, "/d/a.mp4"⟩], "100MB", none, 0, 0⟩)
      "/d" "100MB" none).1 = true ∧
    batchInit (some ⟨"/d", [], [], [], [⟨-5, "/d/a.mp4"⟩], "100MB", none, 0, 0⟩)
      false "/d" "50MB" 52428800 none [] =
      prepareVideoQueue emptyFields 52428800 none [] ∧
    ¬ "/d/x.mp4" ∈ ((prepareVideoQueue ⟨["/d/x.mp4"], [], [], [], 0, 0⟩ 100 none
      [⟨"/d/x.mp4", 999, some [exStream264]⟩]).videoQueue.map (fun q => q.path)) := by
  have h := C3_resume_validation
    (some ⟨"/d", [], [], [], [⟨-5, "/d/a.mp4"⟩], "100MB", none, 0, 0⟩)
    "/d" "100MB" none 104857600 []
  have h2 := C3_resume_validation
    (some ⟨"/d", [], [], [], [⟨-5, "/d/a.mp4"⟩], "100MB", none, 0, 0⟩)
    "/d" "50MB" none 52428800 []
  refine ⟨?_, ?_, ?_⟩
  · exact h.1.mpr ⟨_, rfl, rfl, rfl, rfl, by simp⟩
  · exact h2.2.1 _ rfl (Or.inl (by decide))
  · exact (C3_resume_validation none "/d" "100MB" none 100
      [⟨"/d/x.mp4", 999, some [exStream264]⟩]).2.2
      ⟨["/d/x.mp4"], [], [], [], 0, 0⟩ "/d/x.mp4" (Or.inl (by simp))

/-! ## C7: the minimum-resolution filter -/

lemma belowRes_stream_iff (r : String) (v : VideoStream) :
    (match v.width, v.height with
      | some w, some h =>
        w ≠ 0 && h ≠ 0 && decide (w * h < (RESOLUTION.lookup r).getD 0)
      | _, _ => false) = true ↔
      ∃ w h, v.width = some w ∧ v.height = some h ∧ w ≠ 0 ∧ h ≠ 0 ∧
        w * h < (RESOLUTION.lookup r).getD 0 := by
  rcases hw : v.width with _ | w <;> rcases hh : v.height with _ | h <;>
    simp [and_assoc]

/-- **C7.**  For a candidate that passed the earlier filters (not recorded,
size at or above the threshold, probeable), with a minimum resolution set: the
file is skipped for resolution exactly when all of its streams have truthy
width and height and a pixel count strictly below the threshold resolution's
pixel count; otherwise (at least one stream meeting the threshold or with
unknown/zero dimensions) the file is enqueued. -/
theorem C7_resolution_filter (sE fE : List String) (msb : Nat) (r : String)
    (acc : ScanAcc) (c : Candidate) (streams : List VideoStream)
    (h1 : sE.contains c.path = false) (h2 : fE.contains c.path = false)
    (h3 : ¬ c.size < msb) (h4 : c.probe = some streams) :
    (belowResolutionAll r streams = true ↔
      ∀ v ∈ streams, ∃ w h, v.width = some w ∧ v.height = some h ∧
        w ≠ 0 ∧ h ≠ 0 ∧ w * h < (RESOLUTION.lookup r).getD 0) ∧
    ((scanStep sE fE msb (some r) acc c).tempQueue =
        acc.tempQueue ++ [⟨-(c.size : Int), c.path⟩] ↔
      ¬ belowResolutionAll r streams = true) ∧
    (belowResolutionAll r streams = true →
      (scanStep sE fE msb (some r) acc c).tempQueue = acc.tempQueue ∧
      (scanStep sE fE msb (some r) acc c).skippedVideos =
        acc.skippedVideos ++ [(c.path, "below resolution threshold")]) := by
  have hiff : belowResolutionAll r streams = true ↔
      ∀ v ∈ streams, ∃ w h, v.width = some w ∧ v.height = some h ∧
        w ≠ 0 ∧ h ≠ 0 ∧ w * h < (RESOLUTION.lookup r).getD 0 := by
    unfold belowResolutionAll
    rw [List.all_eq_true]
    constructor
    · intro hall v hv
      exact (belowRes_stream_iff r v).mp (hall v hv)
    · intro hall v hv
      exact (belowRes_stream_iff r v).mpr (hall v hv)
  have hstep : scanStep sE fE msb (some r) acc c =
      (if belowResolutionAll r streams then
        { acc with skippedVideos :=
            acc.skippedVideos ++ [(c.path, "below resolution threshold")] }
      else { acc with tempQueue := acc.tempQueue ++ [⟨-(c.size : Int), c.path⟩] }) := by
    unfold scanStep
    have h1m : ¬ c.path ∈ sE := by simpa using h1
    have h2m : ¬ c.path ∈ fE := by simpa using h2
    rw [if_neg (by simp [h1m, h2m]), if_neg h3, h4]
  refine ⟨hiff, ?_, ?_⟩
  · rw [hstep]
    cases hb : belowResolutionAll r streams with
    | true =>
      rw [if_pos rfl]
      constructor
      · intro he
        exact absurd (congrArg List.length he) (by simp)
      · intro hcontra; exact absurd rfl hcontra
    | false =>
      rw [if_neg (by decide)]
      exact iff_of_true rfl (by simp)
  · intro hb
    rw [hstep, if_pos hb]
    exact ⟨rfl, rfl⟩

/-- Witness for C7: a single 1080p stream is below the 4k threshold (file
skipped), not below the 1080p threshold (file enqueued). -/
theorem C7_resolution_filter_witness :
    belowResolutionAll "4k" [exStream264] = true ∧
    (scanStep [] [] 100 (some "4k") ⟨[], []⟩ ⟨"/d/x.mp4", 999, some [exStream264]⟩).tempQueue
      = [] ∧
    (scanStep [] [] 100 (some "1080p") ⟨[], []⟩
      ⟨"/d/x.mp4", 999, some [exStream264]⟩).tempQueue = [⟨-999, "/d/x.mp4"⟩] := by
  have h4k := C7_resolution_filter [] [] 100 "4k" ⟨[], []⟩
    ⟨"/d/x.mp4", 999, some [exStream264]⟩ [exStream264] rfl rfl (by decide) rfl
  have h1080 := C7_resolution_filter [] [] 100 "1080p" ⟨[], []⟩
    ⟨"/d/x.mp4", 999, some [exStream264]⟩ [exStream264] rfl rfl (by decide) rfl
  refine ⟨by decide, ?_, ?_⟩
  · exact (h4k.2.2 (by decide)).1
  · have := h1080.2.1.mpr (by decide)
    simpa using this

/-! ## C9: the usable-video-stream filter of `get_video_info` -/

/-- **C9 counterexample.**  A second stream that carries no `r_frame_rate` of
its own satisfies none of the claim's exclusion conditions (it is a video
stream with an index, a non-still-image codec, no frame-rate data and no
single-frame marker), yet `get_video_info` excludes it: the loop locals
`frame_rate`/`frame_match` still hold the previous stream's parsed 1/1 value,
so the num=den test fires on stale data; the usable list comes back empty and
MediaFile construction fails, while the claim says the stream is usable. -/
theorem C9_counterexample :
    claimC9Usable exProbeNoFr = true ∧
    getVideoInfo [exProbe11, exProbeNoFr] = .ok [] ∧
    mediaFileVideoInfo [exProbe11, exProbeNoFr] =
      .error "ValueError: no valid video stream" :=
  ⟨rfl, rfl, rfl⟩

lemma excluded_iff_not_claim (s : ProbeStream) :
    streamExcluded s (ownFr s) = true ↔ claimC9Usable s = false := by
  unfold streamExcluded claimC9Usable frDegenerate frTruthy frIsZero
  rcases ownFr s with _ | ⟨n, d⟩ <;>
    rcases s.codecName with _ | c <;>
    simp [Bool.or_eq_true, Bool.and_eq_true, decide_eq_true_iff] <;>
    tauto

lemma getVideoInfoGo_spec :
    ∀ (streams : List ProbeStream) (vars : FrVars) (idx : Nat)
      (acc : List VideoStream),
      (∀ s ∈ streams, ∃ str, s.rFrameRate = some str ∧ str ≠ "") →
      getVideoInfoGo streams vars idx acc =
        .ok (acc.reverse ++ ((List.enumFrom idx streams).filterMap fun p =>
          if streamExcluded p.2 (ownFr p.2) then none
          else some (mkVideoStream p.2 p.1 (ownFr p.2)))) := by
  intro streams
  induction streams with
  | nil => intro vars idx acc h; simp [getVideoInfoGo]
  | cons s rest ih =>
    intro vars idx acc h
    rcases h s (List.mem_cons_self s rest) with ⟨str, hstr, hne⟩
    have hown : parseFrac str = ownFr s := by
      unfold ownFr
      rw [hstr]
      dsimp only
      rw [if_pos hne]
    unfold getVideoInfoGo
    rw [hstr]
    dsimp only
    rw [if_pos hne]
    dsimp only
    rw [ih (some (parseFrac str)) (idx + 1) _
      (fun w hw => h w (List.mem_cons_of_mem s hw))]
    show _ = Except.ok (acc.reverse ++
      (((idx, s) :: List.enumFrom (idx + 1) rest).filterMap fun p =>
        if streamExcluded p.2 (ownFr p.2) then none
        else some (mkVideoStream p.2 p.1 (ownFr p.2))))
    rw [hown]
    cases hex : streamExcluded s (ownFr s) with
    | true => simp [List.filterMap_cons, hex]
    | false => simp [List.filterMap_cons, hex, List.append_assoc]

/-- **C9 amended.**  Provided every probed stream reports a (non-empty)
`r_frame_rate` of its own — otherwise the code reuses the previous stream's
parsed frame rate, or raises UnboundLocalError on the first stream —
`get_video_info` keeps exactly the streams the claim describes: video-type,
with an index, codec outside the still-image set, own frame rate neither zero
nor 1:1, and not reported single-frame; MediaFile construction fails exactly
when that usable list is empty. -/
theorem C9_amended (streams : List ProbeStream)
    (h : ∀ s ∈ streams, ∃ str, s.rFrameRate = some str ∧ str ≠ "") :
    getVideoInfo streams = .ok (usableStreams streams) ∧
    (usableStreams streams = [] →
      mediaFileVideoInfo streams = .error "ValueError: no valid video stream") ∧
    (usableStreams streams ≠ [] →
      mediaFileVideoInfo streams = .ok (usableStreams streams)) ∧
    (∀ s : ProbeStream, streamExcluded s (ownFr s) = true ↔
      claimC9Usable s = false) := by
  have hgo := getVideoInfoGo_spec streams none 0 [] h
  have hmain : getVideoInfo streams = .ok (usableStreams streams) := by
    unfold getVideoInfo usableStreams
    rw [hgo]
    rfl
  refine ⟨hmain, ?_, ?_, fun s => excluded_iff_not_claim s⟩
  · intro hempty
    unfold mediaFileVideoInfo
    rw [hmain]
    dsimp only
    rw [if_pos (by simp [hempty])]
  · intro hne
    unfold mediaFileVideoInfo
    rw [hmain]
    dsimp only
    rw [if_neg (by simpa using hne)]

/-- Witness for C9 amended: three streams, each with its own frame rate — a
normal 30000/1001 h264 stream (kept), a png cover art stream (dropped), a 0/0
frame-rate stream (dropped); construction succeeds with exactly the first. -/
theorem C9_amended_witness :
    getVideoInfo [exProbeH264, exProbePng, exProbeZeroFr] =
      .ok (usableStreams [exProbeH264, exProbePng, exProbeZeroFr]) ∧
    usableStreams [exProbeH264, exProbePng, exProbeZeroFr] =
      [mkVideoStream exProbeH264 0 (some (30000, 1001))] := by
  refine ⟨?_, by rfl⟩
  exact (C9_amended _ (by
    intro s hs
    simp only [List.mem_cons, List.mem_singleton] at hs
    rcases hs with rfl | rfl | rfl | h
    · exact ⟨"30000/1001", rfl, by decide⟩
    · exact ⟨"30000/1001", rfl, by decide⟩
    · exact ⟨"0/0", rfl, by decide⟩
    · exact absurd h (List.not_mem_nil s))).1

/-! ## C8: progress tracking and the broken `get_num_frames` -/

/-- **C8 (code bug).**  `CustomEncoder._encode` calls `get_num_frames()`
before starting the subprocess, and `get_num_frames` reads
`video_stream.is_metadata` / `video_stream.num_frames` — attributes the
`VideoStream` dataclass does not define — so every encode of a file with at
least one usable stream raises AttributeError, `encode_wrapper` turns it into
FAILED, and the transcoder subprocess is never started; the claim (and
`get_num_frames`'s own docstring, "If unavailable ... returns 0") instead
requires the job to run to completion with progress reporting disabled and
progress tracking never to influence the terminal status. -/
theorem C8_progress_code_bug :
    (∀ (vs : VideoStream) (rest : List VideoStream),
      getNumFrames (vs :: rest) =
        .error "AttributeError: VideoStream object has no attribute is_metadata") ∧
    customEncode (some ["-i", "in"]) [exStream264NoDur] [] true =
      (.error "AttributeError: VideoStream object has no attribute is_metadata",
        false) ∧
    customEncode (some ["-i", "in"]) [exStream264] [] true =
      (.error "AttributeError: VideoStream object has no attribute is_metadata",
        false) ∧
    (customEncodeWrapper ⟨false, 90, true, true⟩ (some ["-i", "in"])
      [exStream264NoDur] [] ⟨true, false, 0, true, none, true, true, true⟩
      ⟨true, 100, false, 0, false⟩).status = .failed ∧
    (customEncodeWrapper ⟨false, 90, true, true⟩ (some ["-i", "in"])
      [exStream264NoDur] [] ⟨true, false, 0, true, none, true, true, true⟩
      ⟨true, 100, false, 0, false⟩).invoked = false :=
  ⟨fun _ _ => rfl, rfl, rfl, rfl, rfl⟩

end BatchEnc
